import Mathlib

/-!
Shallow embedding of the NathanVRyver/compiler pipeline (tokenizer, parser,
semantic analyzer, LLVM-IR code generator) and proofs about the claims made
by its specification.  Each definition mirrors one C function of the
repository; the C `FILE *` stream is modelled as a `List Char` (for the
tokenizer) or a `List Token` (for the parser), `ungetc` as consing the
character back, and `EOF` as the empty list.  Uninitialized stack buffers
that the code generator reads from are made explicit as a supply of
arbitrary strings threaded through the generator state.
-/

set_option maxHeartbeats 1000000

namespace CCompiler

/-! ## Tokenizer (src/tokenizer/tokenizer.c, current version) -/

/-- `enum TokenType` from tokenizer.h. -/
inductive TokenType where
  | IDENTIFIER
  | KEYWORD
  | NUMBER
  | STRING
  | OPERATOR
  | PUNCTUATOR
  | EOF
deriving DecidableEq, Repr

/-- `struct Token`: a kind together with its lexeme. -/
structure Token where
  type : TokenType
  value : String
deriving DecidableEq, Repr

/-- The token returned at end of input. -/
def eofToken : Token := { type := TokenType.EOF, value := "" }

/-- C `isspace` on the ASCII characters the tokenizer can meet. -/
def isSpaceC (c : Char) : Bool :=
  c = ' ' || c = '\t' || c = '\n' || c = '\x0d' || c = '\x0b' || c = '\x0c'

/-- C `isalpha` (ASCII). -/
def isAlphaC (c : Char) : Bool :=
  ('a' ≤ c && c ≤ 'z') || ('A' ≤ c && c ≤ 'Z')

/-- C `isdigit` (ASCII). -/
def isDigitC (c : Char) : Bool :=
  '0' ≤ c && c ≤ '9'

/-- C `isalnum` (ASCII). -/
def isAlnumC (c : Char) : Bool :=
  isAlphaC c || isDigitC c

/-- `strchr("{}[]();,", c)`: the punctuator characters. -/
def isPunctC (c : Char) : Bool :=
  c = '\x7b' || c = '\x7d' || c = '[' || c = ']' || c = '(' || c = ')' || c = ';' || c = ','

/-- The keyword table of `is_keyword` (current version, 29 entries). -/
def keywords : List String :=
  ["int", "char", "void", "if", "else", "while", "for", "return",
   "struct", "typedef", "const", "unsigned", "signed", "break", "continue",
   "default", "switch", "case", "enum", "extern", "float", "double",
   "goto", "register", "short", "sizeof", "static", "union", "volatile"]

/-- `is_keyword`. -/
def is_keyword (s : String) : Bool := keywords.contains s

/-- The `// …` skip loop: consume up to and including the next newline
(or everything, at end of input). -/
def skipLineComment : List Char → List Char
  | [] => []
  | '\n' :: r => r
  | _ :: r => skipLineComment r

/-- The `/* … */` skip loop, including its `ungetc` of a non-`/` character
read after a `*`. -/
def skipBlockComment : List Char → List Char
  | [] => []
  | '*' :: r =>
    match r with
    | '/' :: r2 => r2
    | _ => skipBlockComment r
  | _ :: r => skipBlockComment r

theorem skipLineComment_length_le (l : List Char) :
    (skipLineComment l).length ≤ l.length := by
  induction l with
  | nil => simp [skipLineComment]
  | cons c r ih =>
    by_cases h : c = '\n'
    · subst h; simp [skipLineComment]
    · have : skipLineComment (c :: r) = skipLineComment r := by
        cases c <;> simp_all [skipLineComment]
      rw [this]
      exact Nat.le_succ_of_le ih

theorem skipBlockComment_length_le (l : List Char) :
    (skipBlockComment l).length ≤ l.length := by
  induction l with
  | nil => simp [skipBlockComment]
  | cons c r ih =>
    by_cases h : c = '*'
    · subst h
      match r with
      | [] => simp [skipBlockComment]
      | '/' :: r2 => simp [skipBlockComment]; omega
      | c2 :: r2 =>
        by_cases h2 : c2 = '/'
        · subst h2; simp [skipBlockComment]; omega
        · have he : skipBlockComment ('*' :: c2 :: r2) = skipBlockComment (c2 :: r2) := by
            simp [skipBlockComment, h2]
          rw [he]
          exact Nat.le_succ_of_le ih
    · have : skipBlockComment (c :: r) = skipBlockComment r := by
        cases c <;> simp_all [skipBlockComment]
      rw [this]
      exact Nat.le_succ_of_le ih

/-- The `while (1)` loop at the top of `get_next_token` (current version):
skip whitespace and both comment forms, returning the first significant
character and the rest of the stream, or `none` at end of input.  A `/`
not followed by `/` or `*` is significant; the peeked character is pushed
back (`ungetc`). -/
def skipWsComments : List Char → Option (Char × List Char)
  | [] => none
  | c :: r =>
    if isSpaceC c then skipWsComments r
    else if c = '/' then
      match r with
      | '/' :: r2 => skipWsComments (skipLineComment r2)
      | '*' :: r2 => skipWsComments (skipBlockComment r2)
      | _ => some ('/', r)
    else some (c, r)
termination_by l => l.length
decreasing_by
  · simp
  · have := skipLineComment_length_le r2
    simp
    omega
  · have := skipBlockComment_length_le r2
    simp
    omega

theorem skipWsComments_consumes_aux : ∀ (n : Nat) (l : List Char), l.length ≤ n →
    ∀ c r, skipWsComments l = some (c, r) → r.length < l.length := by
  intro n
  induction n with
  | zero =>
    intro l hl c r h
    have : l = [] := List.length_eq_zero.mp (Nat.le_zero.mp hl)
    subst this
    simp [skipWsComments] at h
  | succ n ih =>
    intro l hl c r h
    match l with
    | [] => simp [skipWsComments] at h
    | c0 :: r0 =>
      rw [skipWsComments.eq_def] at h
      simp only at h
      by_cases hs : isSpaceC c0
      · rw [if_pos hs] at h
        have := ih r0 (by simp at hl; omega) c r h
        simp
        omega
      · rw [if_neg hs] at h
        by_cases hc : c0 = '/'
        · rw [if_pos hc] at h
          split at h
          · next r2 =>
            have h1 := skipLineComment_length_le r2
            have h2 := ih (skipLineComment r2) (by simp at hl; omega) c r h
            simp
            omega
          · next r2 =>
            have h1 := skipBlockComment_length_le r2
            have h2 := ih (skipBlockComment r2) (by simp at hl; omega) c r h
            simp
            omega
          · simp at h
            simp [h.2]
        · rw [if_neg hc] at h
          simp at h
          simp [h.2]

theorem skipWsComments_consumes (l : List Char) (c : Char) (r : List Char)
    (h : skipWsComments l = some (c, r)) : r.length < l.length :=
  skipWsComments_consumes_aux l.length l (Nat.le_refl _) c r h

/-- The string-literal loop of `get_next_token` (current version), run after
the opening `"` has been consumed: returns the bytes appended to the token
after the opening quote (escape pairs kept literally, the closing quote
included when present) and the remaining stream. -/
def readStringBody : List Char → (List Char × List Char)
  | [] => ([], [])
  | '"' :: r => (['"'], r)
  | '\\' :: r =>
    match r with
    | n :: r2 =>
      if n = '"' || n = '\\' || n = 'n' || n = 't' then
        let p := readStringBody r2
        ('\\' :: n :: p.1, p.2)
      else
        let p := readStringBody (n :: r2)
        ('\\' :: p.1, p.2)
    | [] => (['\\'], [])
  | c :: r =>
    let p := readStringBody r
    (c :: p.1, p.2)
termination_by l => l.length
decreasing_by
  · simp
    omega
  · simp
  · simp

theorem readStringBody_length_le_aux : ∀ (n : Nat) (l : List Char), l.length ≤ n →
    (readStringBody l).2.length ≤ l.length := by
  intro n
  induction n with
  | zero =>
    intro l hl
    have : l = [] := List.length_eq_zero.mp (Nat.le_zero.mp hl)
    subst this
    simp [readStringBody]
  | succ n ih =>
    intro l hl
    match l with
    | [] => simp [readStringBody]
    | c :: r =>
      by_cases hq : c = '"'
      · subst hq; simp [readStringBody]
      · by_cases hb : c = '\\'
        · subst hb
          match r with
          | [] => simp [readStringBody]
          | n2 :: r2 =>
            rw [readStringBody.eq_def]
            simp only
            by_cases hesc : (n2 = '"' || n2 = '\\' || n2 = 'n' || n2 = 't') = true
            · rw [if_pos hesc]
              have := ih r2 (by simp at hl; omega)
              simp
              omega
            · rw [if_neg hesc]
              have := ih (n2 :: r2) (by simp at hl ⊢; omega)
              simp at this ⊢
              omega
        · have he : readStringBody (c :: r) = ((c :: (readStringBody r).1, (readStringBody r).2)) := by
            rw [readStringBody.eq_def]
            cases c
            simp_all [readStringBody]
          rw [he]
          have := ih r (by simp at hl; omega)
          simp
          omega

theorem readStringBody_length_le (l : List Char) :
    (readStringBody l).2.length ≤ l.length :=
  readStringBody_length_le_aux l.length l (Nat.le_refl _)

/-- Build an operator token. -/
def opTok (s : String) : Token := { type := TokenType.OPERATOR, value := s }

/-- `get_next_token` (current version, tokenizer.c): returns one token and
the remaining input stream. -/
def get_next_token (input : List Char) : Token × List Char :=
  match skipWsComments input with
  | none => (eofToken, [])
  | some (c, r) =>
    if isAlphaC c || c = '_' then
      let taken := r.takeWhile (fun x => isAlnumC x || x = '_')
      let rest := r.dropWhile (fun x => isAlnumC x || x = '_')
      let v := String.mk (c :: taken)
      ({ type := if is_keyword v then TokenType.KEYWORD else TokenType.IDENTIFIER,
         value := v }, rest)
    else if isDigitC c then
      let taken := r.takeWhile isDigitC
      let rest := r.dropWhile isDigitC
      ({ type := TokenType.NUMBER, value := String.mk (c :: taken) }, rest)
    else if c = '"' then
      let p := readStringBody r
      ({ type := TokenType.STRING, value := String.mk ('"' :: p.1) }, p.2)
    else if isPunctC c then
      ({ type := TokenType.PUNCTUATOR, value := String.mk [c] }, r)
    else if c = '=' then
      match r with
      | '=' :: r2 => (opTok "==", r2)
      | _ => (opTok "=", r)
    else if c = '!' || c = '<' || c = '>' then
      match r with
      | '=' :: r2 => (opTok (String.mk [c, '=']), r2)
      | _ => (opTok (String.mk [c]), r)
    else if c = '+' || c = '-' || c = '&' || c = '|' then
      match r with
      | n :: r2 => if n = c then (opTok (String.mk [c, c]), r2)
                   else (opTok (String.mk [c]), r)
      | [] => (opTok (String.mk [c]), [])
    else
      (opTok (String.mk [c]), r)

theorem dropWhile_length_le (p : Char → Bool) (l : List Char) :
    (l.dropWhile p).length ≤ l.length := by
  induction l with
  | nil => simp
  | cons c r ih =>
    by_cases h : p c
    · rw [List.dropWhile_cons_of_pos h]
      simp
      omega
    · rw [List.dropWhile_cons_of_neg h]

/-- Every call to `get_next_token` either consumes at least one byte of the
remaining input or returns the end-of-input token. -/
theorem get_next_token_consumes (input : List Char) :
    (get_next_token input).1.type = TokenType.EOF ∨
      (get_next_token input).2.length < input.length := by
  rw [get_next_token]
  match hskip : skipWsComments input with
  | none => left; simp [eofToken]
  | some (c, r) =>
    right
    have hr := skipWsComments_consumes input c r hskip
    have hdw1 := dropWhile_length_le (fun x => isAlnumC x || x = '_') r
    have hdw2 := dropWhile_length_le isDigitC r
    have hrs := readStringBody_length_le r
    simp only
    split
    · simp only
      omega
    · split
      · simp only
        omega
      · split
        · simp only
          omega
        · split
          · simp only
            omega
          · split
            · split
              · next r2 =>
                simp only
                simp at hr
                omega
              · simp only
                omega
            · split
              · split
                · next r2 =>
                  simp only
                  simp at hr
                  omega
                · simp only
                  omega
              · split
                · split
                  · split
                    · next r2 =>
                      simp only
                      simp at hr
                      omega
                    · simp only
                      omega
                  · simp only
                    simp at hr ⊢
                    omega
                · simp only
                  omega

/-- Tokenize an entire input: call `get_next_token` repeatedly until it
returns the end-of-input token (the driver's verbose token dump and the
parser both consume the stream this way). -/
def tokenize (input : List Char) : List Token :=
  match hg : get_next_token input with
  | (t, r) =>
    if ht : t.type = TokenType.EOF then [t]
    else t :: tokenize r
termination_by input.length
decreasing_by
  have := get_next_token_consumes input
  rw [hg] at this
  simp at this ⊢
  rcases this with h | h
  · exact absurd h ht
  · exact h

theorem tokenize_ne_nil (input : List Char) : tokenize input ≠ [] := by
  rw [tokenize.eq_def]
  split
  next t r hg =>
    split <;> simp

/-- C8: for every finite input byte sequence the tokenizer yields a finite
token sequence ending in EndOfInput; a call on exhausted input returns
EndOfInput (with nothing further to read) again; and every call either
consumes at least one byte or returns EndOfInput. -/
theorem claim_C8_tokenizer_totality :
    (∀ input : List Char, ∃ t, (tokenize input).getLast? = some t ∧
        t.type = TokenType.EOF)
    ∧ get_next_token [] = (eofToken, [])
    ∧ (∀ input : List Char, (get_next_token input).1.type = TokenType.EOF ∨
        (get_next_token input).2.length < input.length) := by
  refine ⟨?_, ?_, get_next_token_consumes⟩
  · have aux : ∀ (n : Nat) (input : List Char), input.length ≤ n →
        ∃ t, (tokenize input).getLast? = some t ∧ t.type = TokenType.EOF := by
      intro n
      induction n with
      | zero =>
        intro input hl
        have hnil : input = [] := List.length_eq_zero.mp (Nat.le_zero.mp hl)
        subst hnil
        rw [tokenize.eq_def]
        split
        next t r hg =>
          have : get_next_token [] = (eofToken, []) := by
            rw [get_next_token]
            simp [skipWsComments, eofToken]
          rw [this] at hg
          cases hg
          simp [eofToken]
      | succ n ih =>
        intro input hl
        rw [tokenize.eq_def]
        split
        next t r hg =>
          by_cases ht : t.type = TokenType.EOF
          · exact ⟨t, by rw [dif_pos ht]; simp, ht⟩
          · have hcons := get_next_token_consumes input
            rw [hg] at hcons
            simp at hcons
            rcases hcons with h | h
            · exact absurd h ht
            · obtain ⟨t2, ht2, ht2e⟩ := ih r (by omega)
              obtain ⟨hd, tl, hcons2⟩ := List.exists_cons_of_ne_nil (tokenize_ne_nil r)
              refine ⟨t2, ?_, ht2e⟩
              rw [dif_neg ht, hcons2]
              rw [List.getLast?_cons_cons]
              rw [← hcons2, ht2]
    intro input
    exact aux input.length input (Nat.le_refl _)
  · rw [get_next_token]
    simp [skipWsComments, eofToken]

/-- C5: maximal munch for the six two-byte operators.  Whenever the first
significant character and its successor form one of `== != <= >= && ||`,
`get_next_token` returns the single two-byte operator token and leaves the
stream positioned after both bytes. -/
theorem claim_C5_maximal_munch (input : List Char) (a b : Char) (rest : List Char)
    (hskip : skipWsComments input = some (a, b :: rest))
    (hop : String.mk [a, b] ∈ (["==", "!=", "<=", ">=", "&&", "||"] : List String)) :
    get_next_token input = (opTok (String.mk [a, b]), rest) := by
  rw [get_next_token, hskip]
  simp at hop
  rcases hop with h | h | h | h | h | h <;>
    · have hab := congrArg String.data h
      simp at hab
      obtain ⟨ha, hb⟩ := hab
      subst ha
      subst hb
      simp [isAlphaC, isDigitC, isPunctC, opTok]

/-- Witness for C5 at a concrete input: `"=="` tokenizes to one `==` token. -/
theorem claim_C5_witness :
    skipWsComments ['=', '='] = some ('=', ['=']) ∧
      get_next_token ['=', '='] = (opTok "==", []) := by
  have h1 : skipWsComments ['=', '='] = some ('=', ['=']) := by
    rw [skipWsComments.eq_def]
    simp [isSpaceC]
  refine ⟨h1, ?_⟩
  exact claim_C5_maximal_munch ['=', '='] '=' '=' [] h1 (by simp)

/-! ## AST (include/parser/parser.h) and parser (src/parser/parser.c = part_002) -/

/-- The tagged AST node variants (`ASTNodeType` plus each node's payload).
Parent back-references are omitted: they are set only on statement/declaration
linkage and are not load-bearing (spec §9). -/
inductive AST where
  | program (decls : List AST)
  | functionDecl (return_type name : String) (params : List (String × String)) (body : Option AST)
  | variableDecl (type name : String) (initializer : Option AST)
  | compoundStmt (stmts : List AST)
  | expressionStmt (expr : Option AST)
  | ifStmt (condition then_branch : AST) (else_branch : Option AST)
  | whileStmt (condition body : AST)
  | forStmt (initializer condition increment : Option AST) (body : AST)
  | returnStmt (value : Option AST)
  | binaryExpr (op : String) (left right : AST)
  | unaryExpr (op : String) (operand : AST)
  | callExpr (callee : String) (args : List AST)
  | identifier (name : String)
  | numberLiteral (value : String)
  | stringLiteral (value : String)
  | assignmentExpr (target value : AST)

/-- `node->type == NODE_IDENTIFIER`. -/
def AST.isIdentifierNode : AST → Bool
  | AST.identifier _ => true
  | _ => false

/-- `struct Parser`: one-token lookahead over the token stream (the `FILE *`
is modelled by the list of tokens not yet read). -/
structure Parser where
  tokens : List Token
  current_token : Token
  previous_token : Token
  has_error : Bool
  error_message : String
deriving DecidableEq, Repr

/-- Reading one token from the stream (`get_next_token` on the parser's
file): at end of stream the EOF token is returned again and again. -/
def nextTok : List Token → Token × List Token
  | [] => (eofToken, [])
  | t :: r => (t, r)

/-- `advance`. -/
def advance (p : Parser) : Parser :=
  let n := nextTok p.tokens
  { p with previous_token := p.current_token, current_token := n.1, tokens := n.2 }

/-- `check`. -/
def check (p : Parser) (ty : TokenType) : Bool :=
  p.current_token.type = ty

/-- `match` (renamed: `match` is reserved). -/
def matchTok (p : Parser) (ty : TokenType) : Bool × Parser :=
  if check p ty then (true, advance p) else (false, p)

/-- `token_equals`: byte-for-byte comparison of a token lexeme. -/
def tokenEquals (a b : String) : Bool := a == b

/-- `set_error` (parser): records and formats the diagnostic. -/
def set_error (p : Parser) (msg : String) : Parser :=
  { p with has_error := true,
           error_message := "Error at \x27" ++ p.current_token.value ++ "\x27: " ++ msg }

/-- `consume`. -/
def consume (p : Parser) (ty : TokenType) (msg : String) : Parser :=
  if check p ty then advance p else set_error p msg

/-- `init_parser` (C name; Lean name avoids the _parser suffix): the first token is fetched immediately. -/
def initParser (ts : List Token) : Parser :=
  advance { tokens := ts, current_token := eofToken, previous_token := eofToken,
            has_error := false, error_message := "" }

/-- The measure justifying termination of the panic-mode recovery loop. -/
def recoverMeasure (p : Parser) : Nat :=
  2 * p.tokens.length + (if p.current_token.type = TokenType.EOF then 0 else 1)

theorem advance_recoverMeasure_le (p : Parser) :
    recoverMeasure (advance p) ≤ recoverMeasure p := by
  rcases p with ⟨ts, cur, prev, he, em⟩
  cases ts with
  | nil => simp [recoverMeasure, advance, nextTok, eofToken]
  | cons t r =>
    simp [recoverMeasure, advance, nextTok]
    split <;> split <;> omega

theorem advance_recoverMeasure_lt (p : Parser)
    (h : ¬ p.current_token.type = TokenType.EOF) :
    recoverMeasure (advance p) < recoverMeasure p := by
  rcases p with ⟨ts, cur, prev, he, em⟩
  cases ts with
  | nil => simp_all [recoverMeasure, advance, nextTok, eofToken]
  | cons t r =>
    simp_all [recoverMeasure, advance, nextTok]
    split <;> omega

/-- The panic-mode recovery loop in `parse_program` (parser.c 104-115):
`while (!check(EOF) && !(match(KEYWORD) && prev ∈ {int,void,char})) advance;`.
Note that `match` consumes the keyword it tests. -/
def parser_recover (p : Parser) : Parser :=
  if p.current_token.type = TokenType.EOF then p
  else if h2 : p.current_token.type = TokenType.KEYWORD then
    let p2 := advance p
    if tokenEquals p2.previous_token.value "int" || tokenEquals p2.previous_token.value "void" ||
        tokenEquals p2.previous_token.value "char" then p2
    else parser_recover (advance p2)
  else parser_recover (advance p)
termination_by recoverMeasure p
decreasing_by
  · calc recoverMeasure (advance (advance p)) ≤ recoverMeasure (advance p) :=
        advance_recoverMeasure_le (advance p)
    _ < recoverMeasure p := advance_recoverMeasure_lt p (by simp_all)
  · exact advance_recoverMeasure_lt p (by simp_all)

mutual

/-- `parse_declaration` (parser.c 120-144): speculative function parse, with
rewind of the single stored `current_token` on failure. -/
def parse_declaration : Nat → Parser → Option AST × Parser
  | 0, p => (none, p)
  | fuel+1, p =>
    if check p TokenType.KEYWORD then
      let saved := p.current_token
      let r1 := parse_function_declaration fuel p
      match r1.1 with
      | some fn => (some fn, r1.2)
      | none =>
        let p2 := { r1.2 with current_token := saved }
        let r2 := parse_variable_declaration fuel p2
        match r2.1 with
        | some vr => (some vr, r2.2)
        | none => parse_statement fuel { r2.2 with current_token := saved }
    else parse_statement fuel p

/-- `parse_function_declaration` (parser.c 817-943). -/
def parse_function_declaration : Nat → Parser → Option AST × Parser
  | 0, p => (none, p)
  | fuel+1, p =>
    let m1 := matchTok p TokenType.KEYWORD
    if !m1.1 then (none, m1.2) else
    let p := m1.2
    let return_type := p.previous_token.value
    let m2 := matchTok p TokenType.IDENTIFIER
    if !m2.1 then (none, m2.2) else
    let p := m2.2
    let name := p.previous_token.value
    let m3 := matchTok p TokenType.PUNCTUATOR
    if !m3.1 || !(tokenEquals m3.2.previous_token.value "(") then (none, m3.2) else
    let p := m3.2
    let ps :=
      if !(check p TokenType.PUNCTUATOR) || !(tokenEquals p.current_token.value ")") then
        parse_params_loop fuel [] p
      else (some [], p)
    match ps.1 with
    | none => (none, ps.2)
    | some params =>
      let p := ps.2
      let m4 := matchTok p TokenType.PUNCTUATOR
      if !m4.1 || !(tokenEquals m4.2.previous_token.value ")") then
        (none, set_error m4.2 "Expected \x27)\x27 after parameters")
      else
      let p := m4.2
      if check p TokenType.PUNCTUATOR && tokenEquals p.current_token.value ";" then
        (some (AST.functionDecl return_type name params none), advance p)
      else if check p TokenType.PUNCTUATOR && tokenEquals p.current_token.value "\x7b" then
        let b := parse_compound_statement fuel p
        match b.1 with
        | none => (none, b.2)
        | some body => (some (AST.functionDecl return_type name params (some body)), b.2)
      else
        (none, set_error p "Expected \x27\x7b\x27 for function body or \x27;\x27 for declaration")

/-- The parameter `do … while (1)` loop of `parse_function_declaration`
(parser.c 857-905). -/
def parse_params_loop : Nat → List (String × String) → Parser →
    Option (List (String × String)) × Parser
  | 0, _, p => (none, p)
  | fuel+1, acc, p =>
    if check p TokenType.PUNCTUATOR && tokenEquals p.current_token.value ")" then (some acc, p)
    else
      let m1 := matchTok p TokenType.KEYWORD
      if !m1.1 then (none, set_error m1.2 "Expected parameter type") else
      let p := m1.2
      let ptype := p.previous_token.value
      let m2 := matchTok p TokenType.IDENTIFIER
      if !m2.1 then (none, set_error m2.2 "Expected parameter name") else
      let p := m2.2
      let pname := p.previous_token.value
      let acc2 := acc ++ [(ptype, pname)]
      if check p TokenType.PUNCTUATOR && tokenEquals p.current_token.value "," then
        parse_params_loop fuel acc2 (advance p)
      else if check p TokenType.PUNCTUATOR && tokenEquals p.current_token.value ")" then
        (some acc2, p)
      else (none, set_error p "Expected \x27,\x27 or \x27)\x27 after parameter")

/-- `parse_variable_declaration` (parser.c 945-997). -/
def parse_variable_declaration : Nat → Parser → Option AST × Parser
  | 0, p => (none, p)
  | fuel+1, p =>
    let m1 := matchTok p TokenType.KEYWORD
    if !m1.1 then (none, set_error m1.2 "Expected variable type") else
    let p := m1.2
    let ty := p.previous_token.value
    let m2 := matchTok p TokenType.IDENTIFIER
    if !m2.1 then (none, set_error m2.2 "Expected variable name") else
    let p := m2.2
    let name := p.previous_token.value
    if check p TokenType.OPERATOR && tokenEquals p.current_token.value "=" then
      let e := parse_expression fuel (advance p)
      match e.1 with
      | none => (none, e.2)
      | some ini =>
        let p := e.2
        let m3 := matchTok p TokenType.PUNCTUATOR
        if !m3.1 || !(tokenEquals m3.2.previous_token.value ";") then
          (none, set_error m3.2 "Expected \x27;\x27 after variable declaration")
        else (some (AST.variableDecl ty name (some ini)), m3.2)
    else
      let m3 := matchTok p TokenType.PUNCTUATOR
      if !m3.1 || !(tokenEquals m3.2.previous_token.value ";") then
        (none, set_error m3.2 "Expected \x27;\x27 after variable declaration")
      else (some (AST.variableDecl ty name none), m3.2)

/-- `parse_statement` (parser.c 999-1019). -/
def parse_statement : Nat → Parser → Option AST × Parser
  | 0, p => (none, p)
  | fuel+1, p =>
    if check p TokenType.PUNCTUATOR && tokenEquals p.current_token.value "\x7b" then
      parse_compound_statement fuel p
    else if check p TokenType.KEYWORD then
      if tokenEquals p.current_token.value "if" then parse_if_statement fuel p
      else if tokenEquals p.current_token.value "while" then parse_while_statement fuel p
      else if tokenEquals p.current_token.value "for" then parse_for_statement fuel p
      else if tokenEquals p.current_token.value "return" then parse_return_statement fuel p
      else if tokenEquals p.current_token.value "int" || tokenEquals p.current_token.value "char"
          || tokenEquals p.current_token.value "void" then
        parse_declaration fuel p
      else parse_expression_statement fuel p
    else parse_expression_statement fuel p

/-- `parse_expression_statement` (parser.c 1021-1049). -/
def parse_expression_statement : Nat → Parser → Option AST × Parser
  | 0, p => (none, p)
  | fuel+1, p =>
    if check p TokenType.PUNCTUATOR && tokenEquals p.current_token.value ";" then
      (some (AST.expressionStmt none), advance p)
    else
      let e := parse_expression fuel p
      match e.1 with
      | none => (none, e.2)
      | some ex =>
        let m := matchTok e.2 TokenType.PUNCTUATOR
        if !m.1 || !(tokenEquals m.2.previous_token.value ";") then
          (none, set_error m.2 "Expected \x27;\x27 after expression")
        else (some (AST.expressionStmt (some ex)), m.2)

/-- `parse_if_statement` (parser.c 1051-1106).  The `else` test uses
`match(KEYWORD)`, which consumes any keyword it sees. -/
def parse_if_statement : Nat → Parser → Option AST × Parser
  | 0, p => (none, p)
  | fuel+1, p =>
    let m1 := matchTok p TokenType.KEYWORD
    if !m1.1 || !(tokenEquals m1.2.previous_token.value "if") then
      (none, set_error m1.2 "Expected \x27if\x27 keyword")
    else
    let m2 := matchTok m1.2 TokenType.PUNCTUATOR
    if !m2.1 || !(tokenEquals m2.2.previous_token.value "(") then
      (none, set_error m2.2 "Expected \x27(\x27 after \x27if\x27")
    else
      let c := parse_expression fuel m2.2
      match c.1 with
      | none => (none, c.2)
      | some cond =>
        let m3 := matchTok c.2 TokenType.PUNCTUATOR
        if !m3.1 || !(tokenEquals m3.2.previous_token.value ")") then
          (none, set_error m3.2 "Expected \x27)\x27 after if condition")
        else
          let tb := parse_statement fuel m3.2
          match tb.1 with
          | none => (none, tb.2)
          | some thenB =>
            let m4 := matchTok tb.2 TokenType.KEYWORD
            if m4.1 && tokenEquals m4.2.previous_token.value "else" then
              let eb := parse_statement fuel m4.2
              match eb.1 with
              | none => (none, eb.2)
              | some elseB => (some (AST.ifStmt cond thenB (some elseB)), eb.2)
            else (some (AST.ifStmt cond thenB none), m4.2)

/-- `parse_while_statement` (parser.c 1108-1140). -/
def parse_while_statement : Nat → Parser → Option AST × Parser
  | 0, p => (none, p)
  | fuel+1, p =>
    let p := advance p
    let p := consume p TokenType.PUNCTUATOR "Expected \x27(\x27 after \x27while\x27"
    if p.has_error || !(tokenEquals p.previous_token.value "(") then (none, p)
    else
      let c := parse_expression fuel p
      match c.1 with
      | none => (none, c.2)
      | some cond =>
        let p := consume c.2 TokenType.PUNCTUATOR "Expected \x27)\x27 after while condition"
        if p.has_error || !(tokenEquals p.previous_token.value ")") then (none, p)
        else
          let b := parse_statement fuel p
          match b.1 with
          | none => (none, b.2)
          | some body => (some (AST.whileStmt cond body), b.2)

/-- The initializer clause of `parse_for_statement` (parser.c 1159-1186):
`some none` means no initializer (bare `;`), `none` means failure. -/
def parse_for_init : Nat → Parser → Option (Option AST) × Parser
  | 0, p => (none, p)
  | fuel+1, p =>
    if !(check p TokenType.PUNCTUATOR && tokenEquals p.current_token.value ";") then
      if check p TokenType.KEYWORD &&
          (tokenEquals p.current_token.value "int" ||
           tokenEquals p.current_token.value "char") then
        let v := parse_variable_declaration fuel p
        match v.1 with
        | none => (none, v.2)
        | some vd => (some (some vd), v.2)
      else
        let e := parse_expression fuel p
        let p2 := consume e.2 TokenType.PUNCTUATOR "Expected \x27;\x27 after for initializer"
        if p2.has_error || !(tokenEquals p2.previous_token.value ";") then (none, p2)
        else (some (some (AST.expressionStmt e.1)), p2)
    else (some none, advance p)

/-- The condition clause of `parse_for_statement` (parser.c 1188-1196). -/
def parse_for_cond : Nat → Parser → Option (Option AST) × Parser
  | 0, p => (none, p)
  | fuel+1, p =>
    if !(check p TokenType.PUNCTUATOR && tokenEquals p.current_token.value ";") then
      let c := parse_expression fuel p
      match c.1 with
      | none => (none, c.2)
      | some cc => (some (some cc), c.2)
    else (some none, p)

/-- The increment clause of `parse_for_statement` (parser.c 1206-1220):
the parsed expression is stored unchecked inside an ExpressionStmt. -/
def parse_for_incr : Nat → Parser → Option AST × Parser
  | 0, p => (none, p)
  | fuel+1, p =>
    if !(check p TokenType.PUNCTUATOR && tokenEquals p.current_token.value ")") then
      let e := parse_expression fuel p
      (some (AST.expressionStmt e.1), e.2)
    else (none, p)

/-- `parse_for_statement` (parser.c 1142-1241). -/
def parse_for_statement : Nat → Parser → Option AST × Parser
  | 0, p => (none, p)
  | fuel+1, p =>
    let p := advance p
    let p := consume p TokenType.PUNCTUATOR "Expected \x27(\x27 after \x27for\x27"
    if p.has_error || !(tokenEquals p.previous_token.value "(") then (none, p)
    else
      let iniRes := parse_for_init fuel p
      match iniRes.1 with
      | none => (none, iniRes.2)
      | some ini =>
        let condRes := parse_for_cond fuel iniRes.2
        match condRes.1 with
        | none => (none, condRes.2)
        | some cond =>
          let p := consume condRes.2 TokenType.PUNCTUATOR "Expected \x27;\x27 after for condition"
          if p.has_error || !(tokenEquals p.previous_token.value ";") then (none, p)
          else
            let incrRes := parse_for_incr fuel p
            let p := consume incrRes.2 TokenType.PUNCTUATOR "Expected \x27)\x27 after for clauses"
            if p.has_error || !(tokenEquals p.previous_token.value ")") then (none, p)
            else
              let b := parse_statement fuel p
              match b.1 with
              | none => (none, b.2)
              | some body => (some (AST.forStmt ini cond incrRes.1 body), b.2)

/-- The value clause of `parse_return_statement` (parser.c 1249-1257):
`some none` is a bare `return;`, `none` a failed value expression. -/
def parse_return_value : Nat → Parser → Option (Option AST) × Parser
  | 0, p => (none, p)
  | fuel+1, p =>
    if check p TokenType.PUNCTUATOR && tokenEquals p.current_token.value ";" then
      (some none, p)
    else
      let v := parse_expression fuel p
      match v.1 with
      | none => (none, v.2)
      | some vv => (some (some vv), v.2)

/-- `parse_return_statement` (parser.c 1243-1267). -/
def parse_return_statement : Nat → Parser → Option AST × Parser
  | 0, p => (none, p)
  | fuel+1, p =>
    let p := advance p
    let vres := parse_return_value fuel p
    match vres.1 with
    | none => (none, vres.2)
    | some val =>
      let p := consume vres.2 TokenType.PUNCTUATOR "Expected \x27;\x27 after return value"
      if p.has_error || !(tokenEquals p.previous_token.value ";") then (none, p)
      else (some (AST.returnStmt val), p)

/-- `parse_compound_statement` (parser.c 469-528). -/
def parse_compound_statement : Nat → Parser → Option AST × Parser
  | 0, p => (none, p)
  | fuel+1, p =>
    let p := consume p TokenType.PUNCTUATOR "Expected \x27\x7b\x27 at start of block."
    if p.has_error || !(tokenEquals p.previous_token.value "\x7b") then
      (none, set_error p "Expected \x27\x7b\x27 at start of block.")
    else
      let sts := parse_compound_loop fuel [] p
      match sts.1 with
      | none => (none, sts.2)
      | some stmts =>
        let p := consume sts.2 TokenType.PUNCTUATOR "Expected \x27\x7d\x27 at end of block."
        if p.has_error || !(tokenEquals p.previous_token.value "\x7d") then
          (none, set_error p "Expected \x27\x7d\x27 at end of block.")
        else (some (AST.compoundStmt stmts), p)

/-- One iteration choice of the block loop (parser.c 489-497): a type
keyword routes to a declaration, anything else to a statement. -/
def parse_block_item : Nat → Parser → Option AST × Parser
  | 0, p => (none, p)
  | fuel+1, p =>
    if check p TokenType.KEYWORD &&
        (tokenEquals p.current_token.value "int" || tokenEquals p.current_token.value "char"
         || tokenEquals p.current_token.value "void") then
      parse_declaration fuel p
    else parse_statement fuel p

/-- The statement loop of `parse_compound_statement` (parser.c 486-517). -/
def parse_compound_loop : Nat → List AST → Parser → Option (List AST) × Parser
  | 0, _, p => (none, p)
  | fuel+1, acc, p =>
    if check p TokenType.PUNCTUATOR && tokenEquals p.current_token.value "\x7d" then
      (some acc, p)
    else
      let st := parse_block_item fuel p
      let acc2 := match st.1 with | some s => acc ++ [s] | none => acc
      if check st.2 TokenType.EOF then
        (none, set_error st.2 "Unterminated block, expected \x27\x7d\x27.")
      else parse_compound_loop fuel acc2 st.2

/-- `parse_expression` (parser.c 530-532). -/
def parse_expression : Nat → Parser → Option AST × Parser
  | 0, p => (none, p)
  | fuel+1, p => parse_assignment fuel p

/-- `parse_assignment` (parser.c 534-565): right-associative; a
non-identifier target is reported (`Invalid assignment target`) and the
left expression is returned unchanged. -/
def parse_assignment : Nat → Parser → Option AST × Parser
  | 0, p => (none, p)
  | fuel+1, p =>
    let e := parse_equality fuel p
    match e.1 with
    | none => (none, e.2)
    | some ex =>
      let p := e.2
      if check p TokenType.OPERATOR && tokenEquals p.current_token.value "=" then
        let v := parse_assignment fuel (advance p)
        match v.1 with
        | none => (some ex, v.2)
        | some vv =>
          if !(AST.isIdentifierNode ex) then (some ex, set_error v.2 "Invalid assignment target")
          else (some (AST.assignmentExpr ex vv), v.2)
      else (some ex, p)

/-- `parse_equality` (parser.c 567-595). -/
def parse_equality : Nat → Parser → Option AST × Parser
  | 0, p => (none, p)
  | fuel+1, p =>
    let e := parse_comparison fuel p
    match e.1 with
    | none => (none, e.2)
    | some ex => parse_equality_loop fuel ex e.2

/-- The `==`/`!=` loop of `parse_equality`. -/
def parse_equality_loop : Nat → AST → Parser → Option AST × Parser
  | 0, _, p => (none, p)
  | fuel+1, ex, p =>
    if check p TokenType.OPERATOR &&
        (tokenEquals p.current_token.value "==" || tokenEquals p.current_token.value "!=") then
      let op := p.current_token.value
      let r := parse_comparison fuel (advance p)
      match r.1 with
      | some rr => parse_equality_loop fuel (AST.binaryExpr op ex rr) r.2
      | none => parse_equality_loop fuel ex r.2
    else (some ex, p)

/-- `parse_comparison` (parser.c 597-627). -/
def parse_comparison : Nat → Parser → Option AST × Parser
  | 0, p => (none, p)
  | fuel+1, p =>
    let e := parse_term fuel p
    match e.1 with
    | none => (none, e.2)
    | some ex => parse_comparison_loop fuel ex e.2

/-- The `<`/`<=`/`>`/`>=` loop of `parse_comparison`. -/
def parse_comparison_loop : Nat → AST → Parser → Option AST × Parser
  | 0, _, p => (none, p)
  | fuel+1, ex, p =>
    if check p TokenType.OPERATOR &&
        (tokenEquals p.current_token.value "<" || tokenEquals p.current_token.value "<=" ||
         tokenEquals p.current_token.value ">" || tokenEquals p.current_token.value ">=") then
      let op := p.current_token.value
      let r := parse_term fuel (advance p)
      match r.1 with
      | some rr => parse_comparison_loop fuel (AST.binaryExpr op ex rr) r.2
      | none => parse_comparison_loop fuel ex r.2
    else (some ex, p)

/-- `parse_term` (parser.c 629-655). -/
def parse_term : Nat → Parser → Option AST × Parser
  | 0, p => (none, p)
  | fuel+1, p =>
    let e := parse_factor fuel p
    match e.1 with
    | none => (none, e.2)
    | some ex => parse_term_loop fuel ex e.2

/-- The `+`/`-` loop of `parse_term`. -/
def parse_term_loop : Nat → AST → Parser → Option AST × Parser
  | 0, _, p => (none, p)
  | fuel+1, ex, p =>
    if check p TokenType.OPERATOR &&
        (tokenEquals p.current_token.value "+" || tokenEquals p.current_token.value "-") then
      let op := p.current_token.value
      let r := parse_factor fuel (advance p)
      match r.1 with
      | some rr => parse_term_loop fuel (AST.binaryExpr op ex rr) r.2
      | none => parse_term_loop fuel ex r.2
    else (some ex, p)

/-- `parse_factor` (parser.c 657-683). -/
def parse_factor : Nat → Parser → Option AST × Parser
  | 0, p => (none, p)
  | fuel+1, p =>
    let e := parse_unary fuel p
    match e.1 with
    | none => (none, e.2)
    | some ex => parse_factor_loop fuel ex e.2

/-- The `*`/`/` loop of `parse_factor`. -/
def parse_factor_loop : Nat → AST → Parser → Option AST × Parser
  | 0, _, p => (none, p)
  | fuel+1, ex, p =>
    if check p TokenType.OPERATOR &&
        (tokenEquals p.current_token.value "*" || tokenEquals p.current_token.value "/") then
      let op := p.current_token.value
      let r := parse_unary fuel (advance p)
      match r.1 with
      | some rr => parse_factor_loop fuel (AST.binaryExpr op ex rr) r.2
      | none => parse_factor_loop fuel ex r.2
    else (some ex, p)

/-- `parse_unary` (parser.c 685-712). -/
def parse_unary : Nat → Parser → Option AST × Parser
  | 0, p => (none, p)
  | fuel+1, p =>
    if check p TokenType.OPERATOR &&
        (tokenEquals p.current_token.value "!" || tokenEquals p.current_token.value "-" ||
         tokenEquals p.current_token.value "&" || tokenEquals p.current_token.value "*") then
      let op := p.current_token.value
      let o := parse_unary fuel (advance p)
      match o.1 with
      | some operand => (some (AST.unaryExpr op operand), o.2)
      | none => (none, o.2)
    else parse_primary fuel p

/-- `parse_primary` (parser.c 714-814): numbers, identifiers (possibly
calls), and parenthesised expressions.  Note that the parenthesis test uses
`match(PUNCTUATOR)`, which consumes any punctuator. -/
def parse_primary : Nat → Parser → Option AST × Parser
  | 0, p => (none, p)
  | fuel+1, p =>
    let m1 := matchTok p TokenType.NUMBER
    if m1.1 then (some (AST.numberLiteral m1.2.previous_token.value), m1.2)
    else
    let m2 := matchTok m1.2 TokenType.IDENTIFIER
    if m2.1 then
      let p := m2.2
      let id_name := p.previous_token.value
      if check p TokenType.PUNCTUATOR && tokenEquals p.current_token.value "(" then
        let p := advance p
        let args := parse_call_args fuel p
        match args.1 with
        | none => (none, args.2)
        | some as0 =>
          let p := consume args.2 TokenType.PUNCTUATOR "Expected \x27)\x27 after function arguments"
          if p.has_error || !(tokenEquals p.previous_token.value ")") then
            (none, set_error p "Expected \x27)\x27 after function arguments")
          else (some (AST.callExpr id_name as0), p)
      else (some (AST.identifier id_name), p)
    else
    let m3 := matchTok m2.2 TokenType.PUNCTUATOR
    if m3.1 && tokenEquals m3.2.previous_token.value "(" then
      let e := parse_expression fuel m3.2
      let p := consume e.2 TokenType.PUNCTUATOR "Expected \x27)\x27 after expression"
      if p.has_error || !(tokenEquals p.previous_token.value ")") then (none, p)
      else (e.1, p)
    else (none, set_error m3.2 "Expected expression")

/-- The argument-list section of `parse_primary` (parser.c 741-774): an
immediate `)` yields no arguments, otherwise the argument loop runs. -/
def parse_call_args : Nat → Parser → Option (List AST) × Parser
  | 0, p => (none, p)
  | fuel+1, p =>
    if !(check p TokenType.PUNCTUATOR) || !(tokenEquals p.current_token.value ")") then
      parse_args_loop fuel [] p
    else (some [], p)

/-- The argument `do … while (1)` loop of `parse_primary` (parser.c 745-773). -/
def parse_args_loop : Nat → List AST → Parser → Option (List AST) × Parser
  | 0, _, p => (none, p)
  | fuel+1, acc, p =>
    if check p TokenType.PUNCTUATOR && tokenEquals p.current_token.value ")" then (some acc, p)
    else
      let a := parse_expression fuel p
      match a.1 with
      | none => (none, a.2)
      | some arg =>
        let acc2 := acc ++ [arg]
        if !(check a.2 TokenType.PUNCTUATOR) || !(tokenEquals a.2.current_token.value ",") then
          (some acc2, a.2)
        else parse_args_loop fuel acc2 (advance a.2)

/-- The top-level `while (!check(EOF))` loop of `parse_program`
(parser.c 90-115), including panic-mode recovery. -/
def parse_program_loop : Nat → List AST → Parser → List AST × Parser
  | 0, acc, p => (acc, p)
  | fuel+1, acc, p =>
    if check p TokenType.EOF then (acc, p)
    else
      let d := parse_declaration fuel p
      let acc2 := match d.1 with | some dd => acc ++ [dd] | none => acc
      let p2 := if d.2.has_error then { parser_recover d.2 with has_error := false } else d.2
      parse_program_loop fuel acc2 p2

end

/-- `parse_program` (parser.c 80-118): always returns a `Program` node with
the declarations collected so far. -/
def parse_program (fuel : Nat) (p : Parser) : AST × Parser :=
  let r := parse_program_loop fuel [] p
  (AST.program r.1, r.2)

/-- C9: multiplication binds tighter than addition.  Parsing the expression
token sequence `x = a + b * c ;` yields an Assignment whose value is the
`+` Binary node having the `*` Binary node (over `b` and `c`) as its right
child. -/
theorem claim_C9_precedence :
    (parse_expression 20 (initParser
      [⟨TokenType.IDENTIFIER, "x"⟩, ⟨TokenType.OPERATOR, "="⟩,
       ⟨TokenType.IDENTIFIER, "a"⟩, ⟨TokenType.OPERATOR, "+"⟩,
       ⟨TokenType.IDENTIFIER, "b"⟩, ⟨TokenType.OPERATOR, "*"⟩,
       ⟨TokenType.IDENTIFIER, "c"⟩, ⟨TokenType.PUNCTUATOR, ";"⟩])).1 =
      some (AST.assignmentExpr (AST.identifier "x")
        (AST.binaryExpr "+" (AST.identifier "a")
          (AST.binaryExpr "*" (AST.identifier "b") (AST.identifier "c")))) := rfl

/-- A state in which the parser has just recorded a top-level error: the
stored lookahead is `;`, and the next tokens of the stream are the type
keyword `int` followed by the identifier `main`. -/
def c4ErrorState : Parser :=
  { tokens := [⟨TokenType.KEYWORD, "int"⟩, ⟨TokenType.IDENTIFIER, "main"⟩],
    current_token := ⟨TokenType.PUNCTUATOR, ";"⟩,
    previous_token := ⟨TokenType.OPERATOR, "@"⟩,
    has_error := true,
    error_message := "Error at \x27;\x27: Expected expression" }

/-- Counterexample to C4 as stated: after panic-mode recovery the parser's
lookahead token is NOT the type keyword — `match(KEYWORD)` consumed it — but
the token following it (`main`); the keyword sits in `previous_token`. -/
theorem claim_C4_counterexample :
    (parser_recover c4ErrorState).current_token = ⟨TokenType.IDENTIFIER, "main"⟩ ∧
      ¬ ((parser_recover c4ErrorState).current_token.type = TokenType.KEYWORD) ∧
      (parser_recover c4ErrorState).previous_token = ⟨TokenType.KEYWORD, "int"⟩ := by
  have h1 : parser_recover c4ErrorState = parser_recover (advance c4ErrorState) := by
    rw [parser_recover.eq_def]
    simp [c4ErrorState, check]
  have h2 : parser_recover (advance c4ErrorState) = advance (advance c4ErrorState) := by
    rw [parser_recover.eq_def]
    simp [c4ErrorState, advance, nextTok, tokenEquals]
  rw [h1, h2]
  simp [c4ErrorState, advance, nextTok]

/-- C4 amended: the recovery loop stops either at end of input or
immediately after *consuming* a type keyword `int`/`void`/`char`; the
consumed keyword is left in `previous_token` and parsing resumes at the
token that follows it. -/
theorem claim_C4_amended_recovery (p : Parser) :
    (parser_recover p).current_token.type = TokenType.EOF ∨
      ((parser_recover p).previous_token.type = TokenType.KEYWORD ∧
        ((parser_recover p).previous_token.value = "int" ∨
         (parser_recover p).previous_token.value = "void" ∨
         (parser_recover p).previous_token.value = "char")) := by
  have aux : ∀ (n : Nat) (q : Parser), recoverMeasure q ≤ n →
      (parser_recover q).current_token.type = TokenType.EOF ∨
        ((parser_recover q).previous_token.type = TokenType.KEYWORD ∧
          ((parser_recover q).previous_token.value = "int" ∨
           (parser_recover q).previous_token.value = "void" ∨
           (parser_recover q).previous_token.value = "char")) := by
    intro n
    induction n with
    | zero =>
      intro q hq
      rw [parser_recover.eq_def]
      by_cases h1 : q.current_token.type = TokenType.EOF
      · rw [if_pos h1]
        exact Or.inl h1
      · exfalso
        have : 0 < recoverMeasure q := by
          simp [recoverMeasure, h1]
        omega
    | succ n ih =>
      intro q hq
      rw [parser_recover.eq_def]
      by_cases h1 : q.current_token.type = TokenType.EOF
      · rw [if_pos h1]
        exact Or.inl h1
      · rw [if_neg h1]
        by_cases h2 : q.current_token.type = TokenType.KEYWORD
        · rw [dif_pos h2]
          simp only
          by_cases h3 : (tokenEquals (advance q).previous_token.value "int" ||
              tokenEquals (advance q).previous_token.value "void" ||
              tokenEquals (advance q).previous_token.value "char") = true
          · rw [if_pos h3]
            right
            have hprev : (advance q).previous_token = q.current_token := rfl
            rw [hprev]
            refine ⟨h2, ?_⟩
            rw [hprev] at h3
            simp [tokenEquals] at h3
            tauto
          · rw [if_neg h3]
            apply ih
            have ha := advance_recoverMeasure_le (advance q)
            have hb := advance_recoverMeasure_lt q h1
            omega
        · rw [dif_neg h2]
          apply ih
          have hb := advance_recoverMeasure_lt q h1
          omega
  exact aux (recoverMeasure p) p (Nat.le_refl _)

mutual

/-- Invariant I1 checked over a whole tree: every Assignment node's target
has the Identifier variant. -/
def assignOk : AST → Bool
  | AST.program ds => assignOkList ds
  | AST.functionDecl _ _ _ b => assignOkOpt b
  | AST.variableDecl _ _ i => assignOkOpt i
  | AST.compoundStmt ss => assignOkList ss
  | AST.expressionStmt e => assignOkOpt e
  | AST.ifStmt c t e => assignOk c && assignOk t && assignOkOpt e
  | AST.whileStmt c b => assignOk c && assignOk b
  | AST.forStmt i c n b => assignOkOpt i && assignOkOpt c && assignOkOpt n && assignOk b
  | AST.returnStmt v => assignOkOpt v
  | AST.binaryExpr _ l r => assignOk l && assignOk r
  | AST.unaryExpr _ o => assignOk o
  | AST.callExpr _ as => assignOkList as
  | AST.identifier _ => true
  | AST.numberLiteral _ => true
  | AST.stringLiteral _ => true
  | AST.assignmentExpr t v => AST.isIdentifierNode t && assignOk t && assignOk v

/-- `assignOk` on an optional child. -/
def assignOkOpt : Option AST → Bool
  | none => true
  | some a => assignOk a

/-- `assignOk` on a child list. -/
def assignOkList : List AST → Bool
  | [] => true
  | a :: as => assignOk a && assignOkList as

end

/-- `assignOkList` on an optional list result. -/
def okListOpt : Option (List AST) → Bool
  | none => true
  | some l => assignOkList l

theorem assignOkList_append (l1 l2 : List AST) :
    assignOkList (l1 ++ l2) = (assignOkList l1 && assignOkList l2) := by
  induction l1 with
  | nil => simp [assignOkList]
  | cons a as ih => simp [assignOkList, ih, Bool.and_assoc]

/-- `assignOk` through two optional layers. -/
def assignOkOptOpt : Option (Option AST) → Bool
  | none => true
  | some o => assignOkOpt o

/-- Every parse function only ever builds Assignment nodes whose target is
an Identifier (`parse_assignment` refuses any other target), for every fuel
bound and every parser state; stated simultaneously for all productions. -/
theorem parser_assignOk : ∀ (fuel : Nat),
    (∀ p, assignOkOpt (parse_declaration fuel p).1 = true)
  ∧ (∀ p, assignOkOpt (parse_function_declaration fuel p).1 = true)
  ∧ (∀ p, assignOkOpt (parse_variable_declaration fuel p).1 = true)
  ∧ (∀ p, assignOkOpt (parse_statement fuel p).1 = true)
  ∧ (∀ p, assignOkOpt (parse_expression_statement fuel p).1 = true)
  ∧ (∀ p, assignOkOpt (parse_if_statement fuel p).1 = true)
  ∧ (∀ p, assignOkOpt (parse_while_statement fuel p).1 = true)
  ∧ (∀ p, assignOkOpt (parse_for_statement fuel p).1 = true)
  ∧ (∀ p, assignOkOpt (parse_return_statement fuel p).1 = true)
  ∧ (∀ p, assignOkOpt (parse_compound_statement fuel p).1 = true)
  ∧ (∀ acc p, assignOkList acc = true → okListOpt (parse_compound_loop fuel acc p).1 = true)
  ∧ (∀ p, assignOkOpt (parse_expression fuel p).1 = true)
  ∧ (∀ p, assignOkOpt (parse_assignment fuel p).1 = true)
  ∧ (∀ p, assignOkOpt (parse_equality fuel p).1 = true)
  ∧ (∀ ex p, assignOk ex = true → assignOkOpt (parse_equality_loop fuel ex p).1 = true)
  ∧ (∀ p, assignOkOpt (parse_comparison fuel p).1 = true)
  ∧ (∀ ex p, assignOk ex = true → assignOkOpt (parse_comparison_loop fuel ex p).1 = true)
  ∧ (∀ p, assignOkOpt (parse_term fuel p).1 = true)
  ∧ (∀ ex p, assignOk ex = true → assignOkOpt (parse_term_loop fuel ex p).1 = true)
  ∧ (∀ p, assignOkOpt (parse_factor fuel p).1 = true)
  ∧ (∀ ex p, assignOk ex = true → assignOkOpt (parse_factor_loop fuel ex p).1 = true)
  ∧ (∀ p, assignOkOpt (parse_unary fuel p).1 = true)
  ∧ (∀ p, assignOkOpt (parse_primary fuel p).1 = true)
  ∧ (∀ acc p, assignOkList acc = true → okListOpt (parse_args_loop fuel acc p).1 = true)
  ∧ (∀ acc p, assignOkList acc = true →
      assignOkList (parse_program_loop fuel acc p).1 = true)
  ∧ (∀ p, assignOkOptOpt (parse_for_init fuel p).1 = true)
  ∧ (∀ p, assignOkOptOpt (parse_for_cond fuel p).1 = true)
  ∧ (∀ p, assignOkOpt (parse_for_incr fuel p).1 = true)
  ∧ (∀ p, assignOkOptOpt (parse_return_value fuel p).1 = true)
  ∧ (∀ p, assignOkOpt (parse_block_item fuel p).1 = true)
  ∧ (∀ p, okListOpt (parse_call_args fuel p).1 = true) := by
  intro fuel
  induction fuel with
  | zero =>
    refine ⟨?_, ?_, ?_, ?_, ?_, ?_, ?_, ?_, ?_, ?_, ?_, ?_, ?_, ?_, ?_, ?_, ?_, ?_, ?_, ?_,
      ?_, ?_, ?_, ?_, ?_, ?_, ?_, ?_, ?_, ?_, ?_⟩
    · intro p; simp [parse_declaration, assignOkOpt]
    · intro p; simp [parse_function_declaration, assignOkOpt]
    · intro p; simp [parse_variable_declaration, assignOkOpt]
    · intro p; simp [parse_statement, assignOkOpt]
    · intro p; simp [parse_expression_statement, assignOkOpt]
    · intro p; simp [parse_if_statement, assignOkOpt]
    · intro p; simp [parse_while_statement, assignOkOpt]
    · intro p; simp [parse_for_statement, assignOkOpt]
    · intro p; simp [parse_return_statement, assignOkOpt]
    · intro p; simp [parse_compound_statement, assignOkOpt]
    · intro a p h; simp [parse_compound_loop, okListOpt]
    · intro p; simp [parse_expression, assignOkOpt]
    · intro p; simp [parse_assignment, assignOkOpt]
    · intro p; simp [parse_equality, assignOkOpt]
    · intro ex p h; simp [parse_equality_loop, assignOkOpt]
    · intro p; simp [parse_comparison, assignOkOpt]
    · intro ex p h; simp [parse_comparison_loop, assignOkOpt]
    · intro p; simp [parse_term, assignOkOpt]
    · intro ex p h; simp [parse_term_loop, assignOkOpt]
    · intro p; simp [parse_factor, assignOkOpt]
    · intro ex p h; simp [parse_factor_loop, assignOkOpt]
    · intro p; simp [parse_unary, assignOkOpt]
    · intro p; simp [parse_primary, assignOkOpt]
    · intro a p h; simp [parse_args_loop, okListOpt]
    · intro a p h; simpa [parse_program_loop] using h
    · intro p; simp [parse_for_init, assignOkOptOpt]
    · intro p; simp [parse_for_cond, assignOkOptOpt]
    · intro p; simp [parse_for_incr, assignOkOpt]
    · intro p; simp [parse_return_value, assignOkOptOpt]
    · intro p; simp [parse_block_item, assignOkOpt]
    · intro p; simp [parse_call_args, okListOpt]
  | succ fuel ih =>
    obtain ⟨ihDecl, ihFn, ihVar, ihStmt, ihExprSt, ihIf, ihWhile, ihFor, ihRet, ihCompound,
      ihCompLoop, ihExpr, ihAssign, ihEq, ihEqLoop, ihCmp, ihCmpLoop, ihTerm, ihTermLoop,
      ihFactor, ihFactorLoop, ihUnary, ihPrimary, ihArgs, ihProgLoop, ihForInit, ihForCond,
      ihForIncr, ihRetVal, ihBlockItem, ihCallArgs⟩ := ih
    have IHfn : ∀ q a, (parse_function_declaration fuel q).1 = a → assignOkOpt a = true :=
      fun q a h => h ▸ ihFn q
    have IHvar : ∀ q a, (parse_variable_declaration fuel q).1 = a → assignOkOpt a = true :=
      fun q a h => h ▸ ihVar q
    have IHstmt : ∀ q a, (parse_statement fuel q).1 = a → assignOkOpt a = true :=
      fun q a h => h ▸ ihStmt q
    have IHexpr : ∀ q a, (parse_expression fuel q).1 = a → assignOkOpt a = true :=
      fun q a h => h ▸ ihExpr q
    have IHassign : ∀ q a, (parse_assignment fuel q).1 = a → assignOkOpt a = true :=
      fun q a h => h ▸ ihAssign q
    have IHeq : ∀ q a, (parse_equality fuel q).1 = a → assignOkOpt a = true :=
      fun q a h => h ▸ ihEq q
    have IHcmp : ∀ q a, (parse_comparison fuel q).1 = a → assignOkOpt a = true :=
      fun q a h => h ▸ ihCmp q
    have IHterm : ∀ q a, (parse_term fuel q).1 = a → assignOkOpt a = true :=
      fun q a h => h ▸ ihTerm q
    have IHfactor : ∀ q a, (parse_factor fuel q).1 = a → assignOkOpt a = true :=
      fun q a h => h ▸ ihFactor q
    have IHunary : ∀ q a, (parse_unary fuel q).1 = a → assignOkOpt a = true :=
      fun q a h => h ▸ ihUnary q
    have IHcompound : ∀ q a, (parse_compound_statement fuel q).1 = a → assignOkOpt a = true :=
      fun q a h => h ▸ ihCompound q
    have IHcompLoop : ∀ acc q a, assignOkList acc = true →
        (parse_compound_loop fuel acc q).1 = a → okListOpt a = true :=
      fun acc q a hacc h => h ▸ ihCompLoop acc q hacc
    have IHforInit : ∀ q a, (parse_for_init fuel q).1 = a → assignOkOptOpt a = true :=
      fun q a h => h ▸ ihForInit q
    have IHforCond : ∀ q a, (parse_for_cond fuel q).1 = a → assignOkOptOpt a = true :=
      fun q a h => h ▸ ihForCond q
    have IHretVal : ∀ q a, (parse_return_value fuel q).1 = a → assignOkOptOpt a = true :=
      fun q a h => h ▸ ihRetVal q
    have IHblockItem : ∀ q a, (parse_block_item fuel q).1 = a → assignOkOpt a = true :=
      fun q a h => h ▸ ihBlockItem q
    have IHcallArgs : ∀ q a, (parse_call_args fuel q).1 = a → okListOpt a = true :=
      fun q a h => h ▸ ihCallArgs q
    have IHdecl : ∀ q a, (parse_declaration fuel q).1 = a → assignOkOpt a = true :=
      fun q a h => h ▸ ihDecl q
    refine ⟨?_, ?_, ?_, ?_, ?_, ?_, ?_, ?_, ?_, ?_, ?_, ?_, ?_, ?_, ?_, ?_, ?_, ?_, ?_, ?_,
      ?_, ?_, ?_, ?_, ?_, ?_, ?_, ?_, ?_, ?_, ?_⟩
    · -- parse_declaration
      intro p
      simp only [parse_declaration]
      split
      · split
        · next fn heq =>
          have := IHfn _ _ heq
          simpa [assignOkOpt] using this
        · next heq =>
          split
          · next vr heq2 =>
            have := IHvar _ _ heq2
            simpa [assignOkOpt] using this
          · exact ihStmt _
      · exact ihStmt p
    · -- parse_function_declaration
      intro p
      simp only [parse_function_declaration]
      split
      · simp [assignOkOpt]
      · split
        · simp [assignOkOpt]
        · split
          · simp [assignOkOpt]
          · split
            · simp [assignOkOpt]
            · next params heq =>
              split
              · split
                · simp [assignOkOpt]
                · split
                  · simp [assignOkOpt, assignOk]
                  · split
                    · split
                      · simp [assignOkOpt]
                      · next body heq2 =>
                        have hb := IHcompound _ _ heq2
                        simp [assignOkOpt] at hb
                        simp [assignOkOpt, assignOk, hb]
                    · simp [assignOkOpt]
              · split
                · simp [assignOkOpt]
                · split
                  · simp [assignOkOpt, assignOk]
                  · split
                    · split
                      · simp [assignOkOpt]
                      · next body heq2 =>
                        have hb := IHcompound _ _ heq2
                        simp [assignOkOpt] at hb
                        simp [assignOkOpt, assignOk, hb]
                    · simp [assignOkOpt]
    · -- parse_variable_declaration
      intro p
      simp only [parse_variable_declaration]
      split
      · simp [assignOkOpt]
      · split
        · simp [assignOkOpt]
        · split
          · split
            · simp [assignOkOpt]
            · next ini heq =>
              split
              · simp [assignOkOpt]
              · have hb := IHexpr _ _ heq
                simp [assignOkOpt] at hb
                simp [assignOkOpt, assignOk, hb]
          · split
            · simp [assignOkOpt]
            · simp [assignOkOpt, assignOk]
    · -- parse_statement
      intro p
      simp only [parse_statement]
      split
      · exact ihCompound _
      · split
        · split
          · exact ihIf _
          · split
            · exact ihWhile _
            · split
              · exact ihFor _
              · split
                · exact ihRet _
                · split
                  · exact ihDecl _
                  · exact ihExprSt _
        · exact ihExprSt _
    · -- parse_expression_statement
      intro p
      simp only [parse_expression_statement]
      split
      · simp [assignOkOpt, assignOk]
      · split
        · simp [assignOkOpt]
        · next ex heq =>
          split
          · simp [assignOkOpt]
          · have hb := IHexpr _ _ heq
            simp [assignOkOpt] at hb
            simp [assignOkOpt, assignOk, hb]
    · -- parse_if_statement
      intro p
      simp only [parse_if_statement]
      split
      · simp [assignOkOpt]
      · split
        · simp [assignOkOpt]
        · split
          · simp [assignOkOpt]
          · next cond heqc =>
            split
            · simp [assignOkOpt]
            · split
              · simp [assignOkOpt]
              · next thenB heqt =>
                have hc := IHexpr _ _ heqc
                have ht := IHstmt _ _ heqt
                simp [assignOkOpt] at hc ht
                split
                · split
                  · simp [assignOkOpt]
                  · next elseB heqe =>
                    have he2 := IHstmt _ _ heqe
                    simp [assignOkOpt] at he2
                    simp [assignOkOpt, assignOk, hc, ht, he2]
                · simp [assignOkOpt, assignOk, hc, ht]
    · -- parse_while_statement
      intro p
      simp only [parse_while_statement]
      split
      · simp [assignOkOpt]
      · split
        · simp [assignOkOpt]
        · next cond heqc =>
          split
          · simp [assignOkOpt]
          · split
            · simp [assignOkOpt]
            · next body heqb =>
              have hc := IHexpr _ _ heqc
              have hb := IHstmt _ _ heqb
              simp [assignOkOpt] at hc hb
              simp [assignOkOpt, assignOk, hc, hb]
    · -- parse_for_statement
      intro p
      simp only [parse_for_statement]
      split
      · simp [assignOkOpt]
      · split
        · simp [assignOkOpt]
        · next ini heqi =>
          have hI : assignOkOpt ini = true := by
            have := IHforInit _ _ heqi
            simpa [assignOkOptOpt] using this
          split
          · simp [assignOkOpt]
          · next cond heqc =>
            have hC : assignOkOpt cond = true := by
              have := IHforCond _ _ heqc
              simpa [assignOkOptOpt] using this
            split
            · simp [assignOkOpt]
            · split
              · simp [assignOkOpt]
              · split
                · simp [assignOkOpt]
                · next body heqb =>
                  have hB := IHstmt _ _ heqb
                  simp [assignOkOpt] at hB
                  simp [assignOkOpt, assignOk, hI, hC, hB]
                  exact ihForIncr _
    · -- parse_return_statement
      intro p
      simp only [parse_return_statement]
      split
      · simp [assignOkOpt]
      · next val heqv =>
        have hV : assignOkOpt val = true := by
          have := IHretVal _ _ heqv
          simpa [assignOkOptOpt] using this
        split
        · simp [assignOkOpt]
        · simp [assignOkOpt, assignOk, hV]
    · -- parse_compound_statement
      intro p
      simp only [parse_compound_statement]
      split
      · simp [assignOkOpt]
      · split
        · simp [assignOkOpt]
        · next stmts heqs =>
          split
          · simp [assignOkOpt]
          · have hS := IHcompLoop _ _ _ (by simp [assignOkList]) heqs
            simp [okListOpt] at hS
            simp [assignOkOpt, assignOk, hS]
    · -- parse_compound_loop
      intro acc p hacc
      simp only [parse_compound_loop]
      split
      · simpa [okListOpt] using hacc
      · split
        · simp [okListOpt]
        · split
          · next s heqs =>
            have hs : assignOk s = true := by
              have := IHblockItem _ _ heqs
              simpa [assignOkOpt] using this
            exact ihCompLoop _ _ (by simp [assignOkList_append, assignOkList, hacc, hs])
          · exact ihCompLoop _ _ hacc
    · -- parse_expression
      intro p
      simp only [parse_expression]
      exact ihAssign _
    · -- parse_assignment
      intro p
      simp only [parse_assignment]
      split
      · simp [assignOkOpt]
      · next ex heqe =>
        have hex : assignOk ex = true := by
          have := IHeq _ _ heqe
          simpa [assignOkOpt] using this
        split
        · split
          · simpa [assignOkOpt] using hex
          · next vv heqv =>
            have hvv : assignOk vv = true := by
              have := IHassign _ _ heqv
              simpa [assignOkOpt] using this
            split
            · simpa [assignOkOpt] using hex
            · next hid =>
              simp at hid
              simp [assignOkOpt, assignOk, hex, hvv, hid]
        · simpa [assignOkOpt] using hex
    · -- parse_equality
      intro p
      simp only [parse_equality]
      split
      · simp [assignOkOpt]
      · next ex heq =>
        have hex : assignOk ex = true := by
          have := IHcmp _ _ heq
          simpa [assignOkOpt] using this
        exact ihEqLoop _ _ hex
    · -- parse_equality_loop
      intro ex p hex
      simp only [parse_equality_loop]
      split
      · split
        · next rr heq =>
          have hrr : assignOk rr = true := by
            have := IHcmp _ _ heq
            simpa [assignOkOpt] using this
          exact ihEqLoop _ _ (by simp [assignOk, hex, hrr])
        · exact ihEqLoop _ _ hex
      · simpa [assignOkOpt] using hex
    · -- parse_comparison
      intro p
      simp only [parse_comparison]
      split
      · simp [assignOkOpt]
      · next ex heq =>
        have hex : assignOk ex = true := by
          have := IHterm _ _ heq
          simpa [assignOkOpt] using this
        exact ihCmpLoop _ _ hex
    · -- parse_comparison_loop
      intro ex p hex
      simp only [parse_comparison_loop]
      split
      · split
        · next rr heq =>
          have hrr : assignOk rr = true := by
            have := IHterm _ _ heq
            simpa [assignOkOpt] using this
          exact ihCmpLoop _ _ (by simp [assignOk, hex, hrr])
        · exact ihCmpLoop _ _ hex
      · simpa [assignOkOpt] using hex
    · -- parse_term
      intro p
      simp only [parse_term]
      split
      · simp [assignOkOpt]
      · next ex heq =>
        have hex : assignOk ex = true := by
          have := IHfactor _ _ heq
          simpa [assignOkOpt] using this
        exact ihTermLoop _ _ hex
    · -- parse_term_loop
      intro ex p hex
      simp only [parse_term_loop]
      split
      · split
        · next rr heq =>
          have hrr : assignOk rr = true := by
            have := IHfactor _ _ heq
            simpa [assignOkOpt] using this
          exact ihTermLoop _ _ (by simp [assignOk, hex, hrr])
        · exact ihTermLoop _ _ hex
      · simpa [assignOkOpt] using hex
    · -- parse_factor
      intro p
      simp only [parse_factor]
      split
      · simp [assignOkOpt]
      · next ex heq =>
        have hex : assignOk ex = true := by
          have := IHunary _ _ heq
          simpa [assignOkOpt] using this
        exact ihFactorLoop _ _ hex
    · -- parse_factor_loop
      intro ex p hex
      simp only [parse_factor_loop]
      split
      · split
        · next rr heq =>
          have hrr : assignOk rr = true := by
            have := IHunary _ _ heq
            simpa [assignOkOpt] using this
          exact ihFactorLoop _ _ (by simp [assignOk, hex, hrr])
        · exact ihFactorLoop _ _ hex
      · simpa [assignOkOpt] using hex
    · -- parse_unary
      intro p
      simp only [parse_unary]
      split
      · split
        · next operand heq =>
          have ho : assignOk operand = true := by
            have := IHunary _ _ heq
            simpa [assignOkOpt] using this
          simp [assignOkOpt, assignOk, ho]
        · simp [assignOkOpt]
      · exact ihPrimary _
    · -- parse_primary
      intro p
      simp only [parse_primary]
      split
      · simp [assignOkOpt, assignOk]
      · split
        · split
          · split
            · simp [assignOkOpt]
            · next as0 heqa =>
              have hargs : assignOkList as0 = true := by
                have := IHcallArgs _ _ heqa
                simpa [okListOpt] using this
              split
              · simp [assignOkOpt]
              · simp [assignOkOpt, assignOk, hargs]
          · simp [assignOkOpt, assignOk]
        · split
          · split
            · simp [assignOkOpt]
            · exact ihExpr _
          · simp [assignOkOpt]
    · -- parse_args_loop
      intro acc p hacc
      simp only [parse_args_loop]
      split
      · simpa [okListOpt] using hacc
      · split
        · simp [okListOpt]
        · next arg heq =>
          have ha : assignOk arg = true := by
            have := IHexpr _ _ heq
            simpa [assignOkOpt] using this
          have hacc2 : assignOkList (acc ++ [arg]) = true := by
            simp [assignOkList_append, assignOkList, hacc, ha]
          split
          · simpa [okListOpt] using hacc2
          · exact ihArgs _ _ hacc2
    · -- parse_program_loop
      intro acc p hacc
      simp only [parse_program_loop]
      split
      · simpa using hacc
      · split
        · next dd heq =>
          have hd : assignOk dd = true := by
            have := IHdecl _ _ heq
            simpa [assignOkOpt] using this
          exact ihProgLoop _ _ (by simp [assignOkList_append, assignOkList, hacc, hd])
        · exact ihProgLoop _ _ hacc
    · -- parse_for_init
      intro p
      simp only [parse_for_init]
      split
      · split
        · split
          · simp [assignOkOptOpt]
          · next vd heq =>
            have := IHvar _ _ heq
            simp [assignOkOpt] at this
            simp [assignOkOptOpt, assignOkOpt, this]
        · split
          · simp [assignOkOptOpt]
          · simp [assignOkOptOpt, assignOkOpt, assignOk]
            exact ihExpr _
      · simp [assignOkOptOpt, assignOkOpt]
    · -- parse_for_cond
      intro p
      simp only [parse_for_cond]
      split
      · split
        · simp [assignOkOptOpt]
        · next cc heq =>
          have := IHexpr _ _ heq
          simp [assignOkOpt] at this
          simp [assignOkOptOpt, assignOkOpt, this]
      · simp [assignOkOptOpt, assignOkOpt]
    · -- parse_for_incr
      intro p
      simp only [parse_for_incr]
      split
      · simp [assignOkOpt, assignOk]
        exact ihExpr _
      · simp [assignOkOpt]
    · -- parse_return_value
      intro p
      simp only [parse_return_value]
      split
      · simp [assignOkOptOpt, assignOkOpt]
      · split
        · simp [assignOkOptOpt]
        · next vv heq =>
          have := IHexpr _ _ heq
          simp [assignOkOpt] at this
          simp [assignOkOptOpt, assignOkOpt, this]
    · -- parse_block_item
      intro p
      simp only [parse_block_item]
      split
      · exact ihDecl _
      · exact ihStmt _
    · -- parse_call_args
      intro p
      simp only [parse_call_args]
      split
      · exact ihArgs _ _ (by simp [assignOkList])
      · simp [okListOpt, assignOkList]

/-! ## Semantic analyzer (src/semantic/semantic.c, current version = main.c 247-797) -/

/-- `DataType` (semantic.h, current version). -/
inductive DataType where
  | VOID
  | INT
  | CHAR
  | POINTER
  | ARRAY
  | STRUCT
deriving DecidableEq, Repr

/-- `TypeInfo` (semantic.h): only the fields the reachable code reads; the
struct field table is never populated (no parser syntax creates structs). -/
inductive TypeInfo where
  | mk (dtype : DataType) (tname : String) (base_type : Option TypeInfo) (array_size : Nat)

/-- The `type` field. -/
def TypeInfo.dtype : TypeInfo → DataType
  | TypeInfo.mk t _ _ _ => t

/-- The `name` field. -/
def TypeInfo.tname : TypeInfo → String
  | TypeInfo.mk _ n _ _ => n

/-- The `base_type` field. -/
def TypeInfo.base : TypeInfo → Option TypeInfo
  | TypeInfo.mk _ _ b _ => b

/-- The `array_size` field. -/
def TypeInfo.asize : TypeInfo → Nat
  | TypeInfo.mk _ _ _ s => s

/-- `create_basic_type` (semantic.c 304-317). -/
def create_basic_type (t : DataType) : TypeInfo :=
  TypeInfo.mk t
    (match t with
     | DataType.VOID => "void"
     | DataType.INT => "int"
     | DataType.CHAR => "char"
     | _ => "unknown")
    none 0

/-- `SymbolType` (semantic.h, current version). -/
inductive SymbolType where
  | VARIABLE
  | FUNCTION
  | PARAMETER
  | STRUCT_TYPE
deriving DecidableEq, Repr

/-- `SymbolEntry` (semantic.h, current version). -/
structure SymbolEntry where
  name : String
  type_info : TypeInfo
  symbol_type : SymbolType
  is_initialized : Bool
  parameter_count : Nat
  param_types : List TypeInfo

/-- `SemanticAnalyzer`: the chain of scopes from the current scope up to the
global scope (head = current).  The C code also keeps exited child scopes in
a tree, but `lookup_symbol`, `declare_symbol` and `exit_scope` only ever
follow the parent chain, which this list models. -/
structure SemanticAnalyzer where
  scopes : List (List SymbolEntry)
  has_error : Bool
  error_message : String
  struct_types : List TypeInfo

/-- `init_semantic_analyzer` (semantic.c 256-281): one empty global scope,
empty struct registry. -/
def init_semantic_analyzer : SemanticAnalyzer :=
  { scopes := [[]], has_error := false, error_message := "", struct_types := [] }

/-- `set_error` (semantic.c 793-797). -/
def set_error_sem (st : SemanticAnalyzer) (msg : String) : SemanticAnalyzer :=
  { st with has_error := true, error_message := "Semantic error: " ++ msg }

/-- `enter_scope` (semantic.c 665-690): push a fresh child scope. -/
def enter_scope (st : SemanticAnalyzer) : SemanticAnalyzer :=
  { st with scopes := [] :: st.scopes }

/-- `exit_scope` (semantic.c 692-700): pop to the parent unless already at
the global scope. -/
def exit_scope (st : SemanticAnalyzer) : SemanticAnalyzer :=
  match st.scopes with
  | f :: g :: rest => { st with scopes := g :: rest }
  | _ => st

/-- The duplicate scan plus prepend of `declare_symbol` (semantic.c 702-733). -/
def declare_symbol (st : SemanticAnalyzer) (name : String) (type : TypeInfo)
    (symbol_type : SymbolType) (is_initialized : Bool) : Bool × SemanticAnalyzer :=
  match st.scopes with
  | [] => (false, st)
  | f :: rest =>
    if (f.find? (fun e => e.name = name)).isSome then
      (false, set_error_sem st "Redeclaration of symbol")
    else
      (true, { st with scopes :=
        ({ name := name, type_info := type, symbol_type := symbol_type,
           is_initialized := is_initialized, parameter_count := 0,
           param_types := [] } :: f) :: rest })

/-- `declare_function` (semantic.c 735-752): declare, then store arity and
parameter types on the just-prepended entry. -/
def declare_function (st : SemanticAnalyzer) (name : String) (return_type : TypeInfo)
    (param_types : List TypeInfo) (param_count : Nat) : Bool × SemanticAnalyzer :=
  let d := declare_symbol st name return_type SymbolType.FUNCTION true
  if d.1 then
    match d.2.scopes with
    | (e :: f) :: rest =>
      (true, { d.2 with scopes :=
        ({ e with parameter_count := param_count, param_types := param_types } :: f) :: rest })
    | _ => (true, d.2)
  else (false, d.2)

/-- The scope walk of `lookup_symbol` (semantic.c 754-771). -/
def lookup_frames : List (List SymbolEntry) → String → Option SymbolEntry
  | [], _ => none
  | f :: rest, name =>
    match f.find? (fun e => e.name = name) with
    | some e => some e
    | none => lookup_frames rest name

/-- `lookup_symbol` (semantic.c 754-771). -/
def lookup_symbol (st : SemanticAnalyzer) (name : String) : Option SymbolEntry :=
  lookup_frames st.scopes name

/-- In-place update of the entry a successful lookup would return
(the assignment case writes `entry->is_initialized = 1` through it). -/
def mark_frame : List SymbolEntry → String → List SymbolEntry
  | [], _ => []
  | e :: es, name =>
    if e.name = name then { e with is_initialized := true } :: es
    else e :: mark_frame es name

/-- Apply `mark_frame` to the first scope of the chain containing the name. -/
def mark_initialized_frames : List (List SymbolEntry) → String → List (List SymbolEntry)
  | [], _ => []
  | f :: rest, name =>
    if (f.find? (fun e => e.name = name)).isSome then mark_frame f name :: rest
    else f :: mark_initialized_frames rest name

/-- `find_struct_type` (semantic.c 353-360): scans the (always empty)
struct registry, comparing past the `struct ` prefix. -/
def find_struct_type (st : SemanticAnalyzer) (name : String) : Option TypeInfo :=
  st.struct_types.find? (fun t => t.tname.drop 7 = name)

/-- `get_type_from_string` (semantic.c 380-392). -/
def get_type_from_string (st : SemanticAnalyzer) (type_str : String) : Option TypeInfo :=
  if type_str = "int" then some (create_basic_type DataType.INT)
  else if type_str = "char" then some (create_basic_type DataType.CHAR)
  else if type_str = "void" then some (create_basic_type DataType.VOID)
  else if type_str.take 7 = "struct " then find_struct_type st (type_str.drop 7)
  else none

/-- The parameter-type resolution loop of the FunctionDecl case
(semantic.c 417-428). -/
def resolve_param_types (st : SemanticAnalyzer) :
    List (String × String) → Option (List TypeInfo)
  | [] => some []
  | (ty, _) :: rest =>
    match get_type_from_string st ty with
    | none => none
    | some t =>
      match resolve_param_types st rest with
      | none => none
      | some ts => some (t :: ts)

/-- The parameter-declaration loop of the FunctionDecl case
(semantic.c 439-445). -/
def declare_params : SemanticAnalyzer → List (String × String) → List TypeInfo →
    Bool × SemanticAnalyzer
  | st, [], _ => (true, st)
  | st, (_, nm) :: rest, t :: ts =>
    let d := declare_symbol st nm t SymbolType.PARAMETER true
    if d.1 then declare_params d.2 rest ts else (false, d.2)
  | st, _ :: _, [] => (false, st)

mutual

/-- `analyze_node` (semantic.c 394-663, current version).  The check of
`is_initialized` on identifier use is commented out in the source and is
therefore absent here as well. -/
def analyze_node : AST → SemanticAnalyzer → Bool × SemanticAnalyzer
  | AST.program decls, st => analyze_list decls st
  | AST.functionDecl rt name params body, st =>
    match get_type_from_string st rt with
    | none => (false, set_error_sem st "Unknown return type")
    | some return_type =>
      match resolve_param_types st params with
      | none => (false, set_error_sem st "Unknown parameter type")
      | some param_types =>
        let d := declare_function st name return_type param_types params.length
        if !d.1 then (false, set_error_sem d.2 "Function redeclaration")
        else
          match body with
          | some b =>
            let dp := declare_params (enter_scope d.2) params param_types
            if !dp.1 then (false, dp.2)
            else
              let r := analyze_node b dp.2
              (r.1, exit_scope r.2)
          | none => (true, d.2)
  | AST.variableDecl ty name ini, st =>
    match get_type_from_string st ty with
    | none => (false, set_error_sem st "Unknown variable type")
    | some t =>
      -- Variables without initializers are considered initialized
      -- (semantic.c 466-468): is_initialized is the constant 1.
      let r := analyze_opt ini st
      if !r.1 then (false, r.2)
      else declare_symbol r.2 name t SymbolType.VARIABLE true
  | AST.compoundStmt stmts, st =>
    let r := analyze_list stmts (enter_scope st)
    (r.1, exit_scope r.2)
  | AST.identifier name, st =>
    match lookup_symbol st name with
    | none => (false, set_error_sem st ("Undeclared identifier: " ++ name))
    | some _ => (true, st)
  | AST.ifStmt cond thenB elseB, st =>
    let r1 := analyze_node cond st
    if !r1.1 then (false, r1.2)
    else
      let r2 := analyze_node thenB r1.2
      if !r2.1 then (false, r2.2)
      else
        let r3 := analyze_opt elseB r2.2
        if !r3.1 then (false, r3.2) else (true, r3.2)
  | AST.whileStmt cond body, st =>
    let r1 := analyze_node cond st
    if !r1.1 then (false, r1.2)
    else analyze_node body r1.2
  | AST.forStmt ini cond incr body, st =>
    let st1 := enter_scope st
    let r1 := analyze_opt ini st1
    if !r1.1 then (false, exit_scope r1.2)
    else
      let r2 := analyze_opt cond r1.2
      if !r2.1 then (false, exit_scope r2.2)
      else
        let r3 := analyze_opt incr r2.2
        if !r3.1 then (false, exit_scope r3.2)
        else
          let r4 := analyze_node body r3.2
          (r4.1, exit_scope r4.2)
  | AST.returnStmt v, st =>
    let r := analyze_opt v st
    if !r.1 then (false, r.2) else (true, r.2)
  | AST.binaryExpr _ l r, st =>
    let r1 := analyze_node l st
    if !r1.1 then (false, r1.2)
    else
      let r2 := analyze_node r r1.2
      if !r2.1 then (false, r2.2) else (true, r2.2)
  | AST.unaryExpr _ o, st => analyze_node o st
  | AST.callExpr callee args, st =>
    match lookup_symbol st callee with
    | none => (false, set_error_sem st "Undeclared function")
    | some entry =>
      if entry.symbol_type ≠ SymbolType.FUNCTION then
        (false, set_error_sem st "Called object is not a function")
      else if entry.parameter_count ≠ args.length then
        (false, set_error_sem st "Wrong number of arguments")
      else analyze_list args st
  | AST.assignmentExpr target value, st =>
    let r1 := analyze_node target st
    if !r1.1 then (false, r1.2)
    else
      let r2 := analyze_node value r1.2
      if !r2.1 then (false, r2.2)
      else
        match target with
        | AST.identifier nm =>
          (true, { r2.2 with scopes := mark_initialized_frames r2.2.scopes nm })
        | _ => (true, r2.2)
  | AST.expressionStmt e, st =>
    let r := analyze_opt e st
    if !r.1 then (false, r.2) else (true, r.2)
  | AST.numberLiteral _, st => (true, st)
  | AST.stringLiteral _, st => (true, st)

/-- `analyze_node(NULL)` returns 1 (semantic.c 395). -/
def analyze_opt : Option AST → SemanticAnalyzer → Bool × SemanticAnalyzer
  | none, st => (true, st)
  | some a, st => analyze_node a st

/-- The short-circuit folds over child lists (program declarations, block
statements, call arguments). -/
def analyze_list : List AST → SemanticAnalyzer → Bool × SemanticAnalyzer
  | [], st => (true, st)
  | a :: as, st =>
    let r := analyze_node a st
    if r.1 then analyze_list as r.2 else (false, r.2)

end

/-- `analyze_ast` (semantic.c 293-302): reset to the global scope, clear
the error flag, and analyze the root. -/
def analyze_ast (st : SemanticAnalyzer) (ast : AST) : Bool × SemanticAnalyzer :=
  analyze_node ast { st with scopes := [st.scopes.getLastD []], has_error := false }

/-- The program `int main() { int x; return x; }`: a variable declared
without initializer and then read without ever being assigned. -/
def progUninitRead : AST :=
  AST.program [AST.functionDecl "int" "main" []
    (some (AST.compoundStmt
      [AST.variableDecl "int" "x" none,
       AST.returnStmt (some (AST.identifier "x"))]))]

/-- C2: a VariableDecl is declared with `is_initialized = true` even with no
initializer; an identifier use is accepted whenever lookup succeeds, with no
regard to the initialized flag (the uninitialized-read check is disabled);
and the program `int main() { int x; return x; }` passes analysis. -/
theorem claim_C2_uninitialized_reads_allowed :
    (∀ st ty nm ini r st2, analyze_node (AST.variableDecl ty nm ini) st = (r, st2) →
      r = true → ∃ e, lookup_symbol st2 nm = some e ∧ e.is_initialized = true)
    ∧ (∀ st nm e, lookup_symbol st nm = some e →
        analyze_node (AST.identifier nm) st = (true, st))
    ∧ (analyze_ast init_semantic_analyzer progUninitRead).1 = true := by
  refine ⟨?_, ?_, ?_⟩
  · intro st ty nm ini r st2 h hr
    subst hr
    simp only [analyze_node] at h
    split at h
    · simp at h
    · next t ht =>
      split at h
      · simp at h
      · simp only [declare_symbol] at h
        split at h
        · simp at h
        · next f rest hsc =>
          split at h
          · simp at h
          · simp only [Prod.mk.injEq] at h
            obtain ⟨-, h2⟩ := h
            subst h2
            refine ⟨⟨nm, t, SymbolType.VARIABLE, true, 0, []⟩, ?_, rfl⟩
            simp [lookup_symbol, lookup_frames, List.find?]
  · intro st nm e h
    simp [analyze_node, lookup_symbol] at h ⊢
    simp [h]
  · rfl

/-- Witness for C2: declaring `int y;` into a state makes `y` initialized,
and reading `x` whose entry has `is_initialized = false` is accepted. -/
def uninitEntry : SymbolEntry :=
  { name := "x", type_info := create_basic_type DataType.INT,
    symbol_type := SymbolType.VARIABLE, is_initialized := false,
    parameter_count := 0, param_types := [] }

/-- A state whose only symbol is the never-assigned variable `x`. -/
def stUninit : SemanticAnalyzer :=
  { scopes := [[uninitEntry]], has_error := false, error_message := "",
    struct_types := [] }

theorem claim_C2_witness :
    (∃ e, lookup_symbol (analyze_node (AST.variableDecl "int" "y" none) stUninit).2 "y"
        = some e ∧ e.is_initialized = true)
    ∧ analyze_node (AST.identifier "x") stUninit = (true, stUninit) := by
  constructor
  · exact claim_C2_uninitialized_reads_allowed.1 stUninit "int" "y" none _ _ rfl rfl
  · exact claim_C2_uninitialized_reads_allowed.2.1 stUninit "x" uninitEntry rfl

/-- `int f(int a); int main() { f(1, 2); }` — a call with too many
arguments. -/
def progArityBad : AST :=
  AST.program [AST.functionDecl "int" "f" [("int", "a")] none,
    AST.functionDecl "int" "main" []
      (some (AST.compoundStmt
        [AST.expressionStmt (some (AST.callExpr "f"
          [AST.numberLiteral "1", AST.numberLiteral "2"]))]))]

/-- `int f(int a); int main() { f(1); }` — a call with matching arity. -/
def progArityGood : AST :=
  AST.program [AST.functionDecl "int" "f" [("int", "a")] none,
    AST.functionDecl "int" "main" []
      (some (AST.compoundStmt
        [AST.expressionStmt (some (AST.callExpr "f" [AST.numberLiteral "1"]))]))]

/-- C3: a Call whose declared callee has a different parameter count is
rejected with `Wrong number of arguments`; a call with matching count only
proceeds to its arguments; end-to-end, the mismatched program fails
`analyze_ast` with that diagnostic and the matching program passes. -/
theorem claim_C3_call_arity :
    (∀ st callee args entry, lookup_symbol st callee = some entry →
      entry.symbol_type = SymbolType.FUNCTION →
      entry.parameter_count ≠ args.length →
      analyze_node (AST.callExpr callee args) st =
        (false, set_error_sem st "Wrong number of arguments"))
    ∧ (∀ st callee args entry, lookup_symbol st callee = some entry →
      entry.symbol_type = SymbolType.FUNCTION →
      entry.parameter_count = args.length →
      analyze_node (AST.callExpr callee args) st = analyze_list args st)
    ∧ (analyze_ast init_semantic_analyzer progArityBad).1 = false
    ∧ (analyze_ast init_semantic_analyzer progArityBad).2.error_message =
        "Semantic error: Wrong number of arguments"
    ∧ (analyze_ast init_semantic_analyzer progArityGood).1 = true := by
  refine ⟨?_, ?_, rfl, rfl, rfl⟩
  · intro st callee args entry h hk hn
    simp [analyze_node, h, hk, hn]
  · intro st callee args entry h hk hn
    simp [analyze_node, h, hk, hn]

/-- An entry for a function `f` of one parameter. -/
def fnEntry : SymbolEntry :=
  { name := "f", type_info := create_basic_type DataType.INT,
    symbol_type := SymbolType.FUNCTION, is_initialized := true,
    parameter_count := 1, param_types := [create_basic_type DataType.INT] }

/-- A state whose only symbol is the one-parameter function `f`. -/
def stFn : SemanticAnalyzer :=
  { scopes := [[fnEntry]], has_error := false, error_message := "",
    struct_types := [] }

theorem claim_C3_witness :
    analyze_node (AST.callExpr "f" [AST.numberLiteral "1", AST.numberLiteral "2"]) stFn =
      (false, set_error_sem stFn "Wrong number of arguments")
    ∧ analyze_node (AST.callExpr "f" [AST.numberLiteral "1"]) stFn =
        analyze_list [AST.numberLiteral "1"] stFn := by
  constructor
  · exact claim_C3_call_arity.1 stFn "f" _ fnEntry rfl rfl (by decide)
  · exact claim_C3_call_arity.2.1 stFn "f" _ fnEntry rfl rfl (by decide)

/-- C7: scope discipline.  If `n` is unresolved in the current chain, then
after entering a scope (as the analyzer does for a compound statement) and
declaring `n` there, the declaration succeeds, lookups from inside that
scope (and from deeper scopes) hit, exiting restores the exact previous
state, and lookups after exit miss. -/
theorem claim_C7_scope_discipline (st : SemanticAnalyzer) (n : String) (t : TypeInfo)
    (k : SymbolType) (hne : st.scopes ≠ []) (hmiss : lookup_symbol st n = none) :
    (declare_symbol (enter_scope st) n t k true).1 = true
    ∧ (lookup_symbol (declare_symbol (enter_scope st) n t k true).2 n).isSome = true
    ∧ (lookup_symbol (enter_scope (declare_symbol (enter_scope st) n t k true).2) n).isSome
        = true
    ∧ exit_scope (declare_symbol (enter_scope st) n t k true).2 = st
    ∧ lookup_symbol (exit_scope (declare_symbol (enter_scope st) n t k true).2) n = none := by
  rcases st with ⟨scopes, he, em, sts⟩
  simp only [lookup_symbol] at hmiss
  simp only at hne
  match scopes with
  | [] => simp at hne
  | g :: rest =>
    simp [enter_scope, declare_symbol, exit_scope, lookup_symbol, lookup_frames,
      List.find?, hmiss]
    rw [lookup_frames] at hmiss
    exact hmiss

theorem claim_C7_witness :
    (declare_symbol (enter_scope init_semantic_analyzer) "x"
        (create_basic_type DataType.INT) SymbolType.VARIABLE true).1 = true
    ∧ exit_scope (declare_symbol (enter_scope init_semantic_analyzer) "x"
        (create_basic_type DataType.INT) SymbolType.VARIABLE true).2
        = init_semantic_analyzer := by
  have h := claim_C7_scope_discipline init_semantic_analyzer "x"
    (create_basic_type DataType.INT) SymbolType.VARIABLE
    (by simp [init_semantic_analyzer]) rfl
  exact ⟨h.1, h.2.2.2.1⟩

/-! ## Code generator (include/codegen/codegen.h, src/src/codegen/codegen.c)

The C code generator writes IR text to a `FILE*`; the embedding collects the
written text as a list of output lines (a `fprintf` ending in `"\n"`
terminates the current line, `"\n%s:\n"` emits an empty line and then a label
line, `"}\n\n"` emits the closing brace line and then an empty line, and the
pieces of a `define`/`call` line printed by successive `fprintf` calls are
assembled into the one line they form).

Several cases declare local `char buf[32]` result buffers and pass them to
child invocations of `generate_node` WITHOUT initializing them; a child that
never writes its result buffer (e.g. the number-literal case) leaves the
indeterminate stack contents to be read by the parent.  The embedding makes
this explicit: the generator state carries a `junk` supply of strings, and
each uninitialized buffer declaration draws its indeterminate initial
contents from that supply (`freshBuf`).  Buffers that are always written
before being read (`bool_reg`, `cmp_reg` in codegen.c 474/500) need no
draw. -/

/-- `VarInfo` (codegen.h 10-15). -/
structure VarInfo where
  name : String
  reg : String
  type : TypeInfo
  is_alloca : Bool

/-- `FunctionInfo` (codegen.h 17-22).  The `params`/`param_count` fields are
written in the function-declaration case but never read afterwards, so they
are omitted. -/
structure FunctionInfo where
  name : String
  return_type : TypeInfo

/-- `CodeGenerator` (codegen.h 27-48) plus the explicit junk supply for
uninitialized stack buffers and the `static int str_counter` of the
string-literal case (codegen.c 626).  The optimization flags are set but
never read, so they are omitted. -/
structure CodeGenerator where
  output : List String
  temp_counter : Nat
  label_counter : Nat
  has_error : Bool
  error_message : String
  local_vars : List VarInfo
  functions : List FunctionInfo
  current_function : Option FunctionInfo
  str_counter : Nat
  junk : List String

/-- The module header written by `init_code_generator` (codegen.c 36-41). -/
def preamble : List String :=
  ["; LLVM IR Generated Code",
   "target triple = \"x86_64-unknown-linux-gnu\"",
   "",
   "declare i32 @printf(i8* nocapture readonly, ...)",
   "declare i32 @scanf(i8* nocapture readonly, ...)",
   ""]

/-- `init_code_generator` (codegen.c 10-44), parameterized by the junk
supply. -/
def init_code_generator (junk : List String) : CodeGenerator :=
  { output := preamble, temp_counter := 0, label_counter := 0,
    has_error := false, error_message := "",
    local_vars := [], functions := [], current_function := none,
    str_counter := 0, junk := junk }

/-- `set_error` (codegen.c 678-683). -/
def set_error_gen (g : CodeGenerator) (message : String) : CodeGenerator :=
  { g with has_error := true,
           error_message := "Code generation error: " ++ message }

/-- Append one line of IR text to the output. -/
def emit (g : CodeGenerator) (line : String) : CodeGenerator :=
  { g with output := g.output ++ [line] }

/-- `generate_temp` (codegen.c 85-87). -/
def generate_temp (g : CodeGenerator) : String × CodeGenerator :=
  ("t" ++ toString g.temp_counter, { g with temp_counter := g.temp_counter + 1 })

/-- `generate_label` (codegen.c 89-91). -/
def generate_label (g : CodeGenerator) : String × CodeGenerator :=
  ("label" ++ toString g.label_counter, { g with label_counter := g.label_counter + 1 })

/-- A `char buf[32];` declaration whose contents are read before any write
reaching it: the indeterminate initial contents come from the junk supply
(empty string once the supply is exhausted). -/
def freshBuf (g : CodeGenerator) : String × CodeGenerator :=
  match g.junk with
  | [] => ("", g)
  | j :: rest => (j, { g with junk := rest })

/-- `add_local_var` (codegen.c 93-110): at the `MAX_VARS = 1024` cap the
variable is dropped with an error; an alloca-backed variable uses its own
name as register, otherwise a fresh temporary is drawn. -/
def add_local_var (g : CodeGenerator) (name : String) (type : TypeInfo)
    (is_alloca : Bool) : CodeGenerator :=
  if g.local_vars.length ≥ 1024 then
    set_error_gen g "Too many local variables"
  else if is_alloca then
    { g with local_vars := g.local_vars ++ [⟨name, name, type, is_alloca⟩] }
  else
    let t := generate_temp g
    { t.2 with local_vars := t.2.local_vars ++ [⟨name, t.1, type, is_alloca⟩] }

/-- `find_var` (codegen.c 112-119): first match in insertion order. -/
def find_var (g : CodeGenerator) (name : String) : Option VarInfo :=
  g.local_vars.find? (fun v => v.name == name)

/-- `add_function` (codegen.c 121-134): at the `MAX_FUNCTIONS = 128` cap the
function is dropped with an error (and `current_function` is left as is);
otherwise the new entry becomes the current function. -/
def add_function (g : CodeGenerator) (name : String) (return_type : TypeInfo) :
    CodeGenerator :=
  if g.functions.length ≥ 128 then
    set_error_gen g "Too many functions"
  else
    { g with functions := g.functions ++ [⟨name, return_type⟩],
             current_function := some ⟨name, return_type⟩ }

/-- `find_function` (codegen.c 136-143): first match in insertion order. -/
def find_function (g : CodeGenerator) (name : String) : Option FunctionInfo :=
  g.functions.find? (fun f => f.name == name)

/-- `type_to_llvm` (codegen.c 145-169) on a non-null `TypeInfo`. -/
def type_to_llvm_t : TypeInfo → String
  | TypeInfo.mk DataType.VOID _ _ _ => "void"
  | TypeInfo.mk DataType.INT _ _ _ => "i32"
  | TypeInfo.mk DataType.CHAR _ _ _ => "i8"
  | TypeInfo.mk DataType.POINTER _ b _ =>
      (match b with
       | none => "i32"
       | some bt => type_to_llvm_t bt) ++ "*"
  | TypeInfo.mk DataType.ARRAY _ b sz =>
      "[" ++ toString sz ++ " x " ++
        (match b with
         | none => "i32"
         | some bt => type_to_llvm_t bt) ++ "]"
  | TypeInfo.mk DataType.STRUCT n _ _ => "%struct." ++ n.drop 7

/-- `type_to_llvm` (codegen.c 145-169): a null type pointer maps to `i32`. -/
def type_to_llvm : Option TypeInfo → String
  | none => "i32"
  | some t => type_to_llvm_t t

/-- The parameter-list loop of the function-declaration case
(codegen.c 202-219): builds the printed parameter text and registers each
parameter as a non-alloca local (drawing a fresh temporary for its
register). -/
def gen_params (ps : List (String × String)) (first : Bool) (g : CodeGenerator) :
    String × CodeGenerator :=
  match ps with
  | [] => ("", g)
  | (pt, pn) :: rest =>
    let param_type :=
      if pt = "char" then create_basic_type DataType.CHAR
      else create_basic_type DataType.INT
    let piece := (if first then "" else ", ") ++ type_to_llvm (some param_type) ++ " %" ++ pn
    let g1 := add_local_var g pn param_type false
    let r := gen_params rest false g1
    (piece ++ r.1, r.2)

/-- The function epilogue (codegen.c 230-237): the default `ret`, the closing
brace, the blank separator line, and clearing `current_function`. -/
def func_epilogue (return_type : TypeInfo) (g : CodeGenerator) : CodeGenerator :=
  let g1 :=
    if return_type.dtype = DataType.VOID then emit g "  ret void"
    else emit g ("  ret " ++ type_to_llvm (some return_type) ++ " 0")
  { emit (emit g1 "\x7d") "" with current_function := none }

/-- The escape-processing loop of the string-literal case (codegen.c 633-646):
the input is the token text from index 1 on (still ending in the closing
quote), the loop stops when positioned on the final character. -/
def processString : List Char → List Char
  | [] => []
  | c :: rest =>
    if rest.isEmpty then []
    else if c = '\\' then
      match rest with
      | [] => []
      | e :: rest2 =>
        (if e = 'n' then '\n'
         else if e = 't' then '\t'
         else if e = 'r' then '\r'
         else if e = '0' then Char.ofNat 0
         else e) :: processString rest2
    else c :: processString rest

/-- The per-character IR rendering of the string-constant body
(codegen.c 654-662). -/
def renderIRChar (c : Char) : String :=
  if c = '\n' then "\\0A"
  else if c = '\t' then "\\09"
  else if c = '\r' then "\\0D"
  else if c = Char.ofNat 0 then "\\00"
  else if c = '"' then "\\22"
  else if c = '\\' then "\\5C"
  else String.singleton c

/-- The binary-operator dispatch table (codegen.c 444-467): the instruction
mnemonic printed for each supported operator, `none` for the unsupported
ones. -/
def binaryInstr (op : String) : Option String :=
  if op = "+" then some "add"
  else if op = "-" then some "sub"
  else if op = "*" then some "mul"
  else if op = "/" then some "sdiv"
  else if op = "==" then some "icmp eq"
  else if op = "!=" then some "icmp ne"
  else if op = "<" then some "icmp slt"
  else if op = "<=" then some "icmp sle"
  else if op = ">" then some "icmp sgt"
  else if op = ">=" then some "icmp sge"
  else none

/-- `fprintf(output, "\n%s:\n", label)` (codegen.c 314 etc.): an empty
line followed by the label line. -/
def emitLabelLine (g : CodeGenerator) (l : String) : CodeGenerator :=
  emit (emit g "") (l ++ ":")

/-- The `NODE_NUMBER_LITERAL` case (codegen.c 603-615): the literal is added
to 0 into a register named by the CURRENT (never initialized) contents of the
caller-provided buffer; the buffer is not written and no temporary is
drawn. -/
def gen_number (v : String) (buf : Option String) (g : CodeGenerator) :
    Bool × Option String × CodeGenerator :=
  match buf with
  | none => (false, none, set_error_gen g "No result register provided for number literal")
  | some res => (true, some res, emit g ("  %" ++ res ++ " = add i32 " ++ v ++ ", 0"))

/-- The `NODE_IDENTIFIER` case (codegen.c 577-601): an alloca-backed variable
is loaded into a register named by the buffer contents; otherwise the
variable register is copied into the buffer. -/
def gen_identifier (name : String) (buf : Option String) (g : CodeGenerator) :
    Bool × Option String × CodeGenerator :=
  match buf with
  | none => (false, none, set_error_gen g "No result register provided for identifier")
  | some res =>
    match find_var g name with
    | none => (false, some res, set_error_gen g "Undefined variable")
    | some var =>
      if var.is_alloca then
        (true, some res, emit g ("  %" ++ res ++ " = load " ++ type_to_llvm (some var.type)
          ++ ", " ++ type_to_llvm (some var.type) ++ "* %" ++ var.name))
      else (true, some var.reg, g)

/-- The `NODE_STRING_LITERAL` case (codegen.c 617-670). -/
def gen_string (v : String) (buf : Option String) (g : CodeGenerator) :
    Bool × Option String × CodeGenerator :=
  match buf with
  | none => (false, none, set_error_gen g "No result register provided for string literal")
  | some res =>
    let str_name := "str." ++ toString g.str_counter
    let g1 := { g with str_counter := g.str_counter + 1 }
    let processed := processString (v.toList.drop 1) ++ [Char.ofNat 0]
    let len := processed.length
    let g2 := emit g1 ("@" ++ str_name ++ " = private constant [" ++ toString len
        ++ " x i8] c\"" ++ String.join (processed.map renderIRChar) ++ "\"")
    (true, some res, emit g2 ("  %" ++ res ++ " = getelementptr [" ++ toString len
      ++ " x i8], [" ++ toString len ++ " x i8]* @" ++ str_name ++ ", i32 0, i32 0"))

/-- The prologue of the `NODE_FUNCTION_DECL` case (codegen.c 186-222):
resolve the return type, register the function, reset the local-variable
table, run the parameter loop, and print the `define` line and the `entry`
label. -/
def gen_function_pre (rt name : String) (params : List (String × String))
    (g0 : CodeGenerator) : TypeInfo × CodeGenerator :=
  let return_type :=
    if rt = "void" then create_basic_type DataType.VOID
    else if rt = "char" then create_basic_type DataType.CHAR
    else create_basic_type DataType.INT
  let g1 := add_function g0 name return_type
  let g2 := { g1 with local_vars := [] }
  let pr := gen_params params true g2
  let g3 := emit pr.2 ("define " ++ type_to_llvm (some return_type) ++ " @" ++ name
              ++ "(" ++ pr.1 ++ ") \x7b")
  (return_type, emit g3 "entry:")

/-- The prologue of the `NODE_VARIABLE_DECL` case (codegen.c 245-251):
resolve the type, print the `alloca`, register the variable. -/
def gen_vardecl_pre (ty name : String) (g0 : CodeGenerator) :
    TypeInfo × CodeGenerator :=
  let var_type :=
    if ty = "char" then create_basic_type DataType.CHAR
    else create_basic_type DataType.INT
  let g1 := emit g0 ("  %" ++ name ++ " = alloca " ++ type_to_llvm (some var_type))
  (var_type, add_local_var g1 name var_type true)

/-- The initializer store of the `NODE_VARIABLE_DECL` case (codegen.c
259-264): emitted only when `find_var` succeeds. -/
def gen_vardecl_store (var_type : TypeInfo) (name content : String)
    (g : CodeGenerator) : CodeGenerator :=
  match find_var g name with
  | some _ => emit g ("  store " ++ type_to_llvm (some var_type) ++ " %" ++ content
      ++ ", " ++ type_to_llvm (some var_type) ++ "* %" ++ name)
  | none => g

/-- The zero store of an initializer-less `NODE_VARIABLE_DECL`
(codegen.c 266-267). -/
def gen_vardecl_zero (var_type : TypeInfo) (name : String) (g : CodeGenerator) :
    CodeGenerator :=
  emit g ("  store " ++ type_to_llvm (some var_type) ++ " 0, "
    ++ type_to_llvm (some var_type) ++ "* %" ++ name)

/-- The operator dispatch and boolean-to-i32 conversion of the
`NODE_BINARY_EXPR` case (codegen.c 444-480), after both operands have been
generated: `res` is the current contents of the caller buffer, `lc`/`rc` the
operand registers.  For a comparison (operator starting in `=`, `!`, `<` or
`>`) a fresh temporary is drawn and written into the caller buffer. -/
def gen_binary_post (op res lc rc : String) (g : CodeGenerator) :
    Bool × Option String × CodeGenerator :=
  match binaryInstr op with
  | none => (false, some res, set_error_gen g "Unsupported binary operator")
  | some ins =>
    let g1 := emit g ("  %" ++ res ++ " = " ++ ins ++ " i32 %" ++ lc ++ ", %" ++ rc)
    if op.take 1 = "=" || op.take 1 = "!" || op.take 1 = "<" || op.take 1 = ">" then
      let t := generate_temp g1
      (true, some t.1, emit t.2 ("  %" ++ t.1 ++ " = zext i1 %" ++ res ++ " to i32"))
    else (true, some res, g1)

/-- The operator dispatch of the `NODE_UNARY_EXPR` case (codegen.c
497-507). -/
def gen_unary_post (op res oc : String) (g : CodeGenerator) :
    Bool × Option String × CodeGenerator :=
  if op = "-" then
    (true, some res, emit g ("  %" ++ res ++ " = sub i32 0, %" ++ oc))
  else if op = "!" then
    let t := generate_temp g
    let g2 := emit t.2 ("  %" ++ t.1 ++ " = icmp eq i32 %" ++ oc ++ ", 0")
    (true, some res, emit g2 ("  %" ++ res ++ " = zext i1 %" ++ t.1 ++ " to i32"))
  else (false, some res, set_error_gen g "Unsupported unary operator")

/-- The `call` emission of the `NODE_CALL_EXPR` case (codegen.c 523-542):
`contents` are the registers of the (at most 16) evaluated arguments. -/
def gen_call_post (callee : String) (contents : List String) (buf : Option String)
    (g : CodeGenerator) : Bool × Option String × CodeGenerator :=
  let return_type :=
    match find_function g callee with
    | some f => f.return_type
    | none => create_basic_type DataType.INT
  let operands := String.intercalate ", " (contents.map (fun c => "i32 %" ++ c))
  match buf with
  | some res =>
    if return_type.dtype = DataType.VOID then
      (true, buf, emit g ("  call " ++ type_to_llvm (some return_type) ++ " @" ++ callee
        ++ "(" ++ operands ++ ")"))
    else
      (true, buf, emit g ("  %" ++ res ++ " = call " ++ type_to_llvm (some return_type)
        ++ " @" ++ callee ++ "(" ++ operands ++ ")"))
  | none =>
    (true, buf, emit g ("  call " ++ type_to_llvm (some return_type) ++ " @" ++ callee
      ++ "(" ++ operands ++ ")"))

/-- The variable type read off the `find_var` hit in the
`NODE_ASSIGNMENT_EXPR` case (codegen.c 555, 567); only consulted after the
lookup succeeded. -/
def assignVarType (g : CodeGenerator) (name : String) : TypeInfo :=
  match find_var g name with
  | some var => var.type
  | none => create_basic_type DataType.INT

/-- The store and result copy of the `NODE_ASSIGNMENT_EXPR` case
(codegen.c 566-574): `vc` is the generated value register; if a result
buffer was provided it now holds `vc`. -/
def gen_assign_post (vt : TypeInfo) (name vc : String) (buf : Option String)
    (g : CodeGenerator) : Bool × Option String × CodeGenerator :=
  let g1 := emit g ("  store " ++ type_to_llvm (some vt) ++ " %" ++ vc
      ++ ", " ++ type_to_llvm (some vt) ++ "* %" ++ name)
  match buf with
  | some _ => (true, some vc, g1)
  | none => (true, none, g1)

/-- The `ret` emission of the `NODE_RETURN_STMT` case (codegen.c 420-421).
The C dereferences `current_function` unconditionally (a null pointer for a
return outside any function); the embedding maps the null case to the
`type_to_llvm(NULL) = "i32"` default, a path no theorem below exercises. -/
def gen_return_post (content : String) (g : CodeGenerator) : CodeGenerator :=
  let rt := match g.current_function with
            | some f => some f.return_type
            | none => none
  emit g ("  ret " ++ type_to_llvm rt ++ " %" ++ content)

/-- Labels and conditional branch of the `NODE_IF_STMT` case (codegen.c
305-314): returns `(then, else, end)` labels and the state positioned after
the `then` label line. -/
def gen_if_head (condContent : String) (hasElse : Bool) (g : CodeGenerator) :
    (String × String × String) × CodeGenerator :=
  let tl := generate_label g
  let el := generate_label tl.2
  let nl := generate_label el.2
  let g2 := emit nl.2 ("  br i1 %" ++ condContent ++ ", label %" ++ tl.1
      ++ ", label %" ++ (if hasElse then el.1 else nl.1))
  ((tl.1, el.1, nl.1), emitLabelLine g2 tl.1)

/-- Labels and loop entry of the `NODE_WHILE_STMT` case (codegen.c 337-344):
returns `(cond, body, end)` labels and the state positioned after the `cond`
label line. -/
def gen_while_head (g : CodeGenerator) : (String × String × String) × CodeGenerator :=
  let cl := generate_label g
  let bl := generate_label cl.2
  let nl := generate_label bl.2
  ((cl.1, bl.1, nl.1), emitLabelLine (emit nl.2 ("  br label %" ++ cl.1)) cl.1)

/-- Labels and loop entry of the `NODE_FOR_STMT` case (codegen.c 373-381):
returns `(cond, body, incr, end)` labels and the state positioned after the
`cond` label line. -/
def gen_for_head (g : CodeGenerator) : (String × String × String × String) × CodeGenerator :=
  let cl := generate_label g
  let bl := generate_label cl.2
  let il := generate_label bl.2
  let nl := generate_label il.2
  ((cl.1, bl.1, il.1, nl.1), emitLabelLine (emit nl.2 ("  br label %" ++ cl.1)) cl.1)

mutual

/-- `generate_node` (codegen.c 171-676).  The second argument is the caller's
result buffer: `none` models a `NULL` `result_reg`, `some s` a 32-byte buffer
currently holding `s`.  The result triple is the C return value, the contents
of the caller's buffer after the call (the callee may `strcpy` into it), and
the updated generator. -/
def generate_node : AST → Option String → CodeGenerator → Bool × Option String × CodeGenerator
  | AST.program ds, buf, g =>
    let r := gen_seq ds g
    (r.1, buf, r.2)
  | AST.functionDecl rt name params body, buf, g0 =>
    let pre := gen_function_pre rt name params g0
    let rb := gen_opt0 body pre.2
    if rb.1 then (true, buf, func_epilogue pre.1 rb.2)
    else (false, buf, rb.2)
  | AST.variableDecl ty name ini, buf, g0 =>
    let pre := gen_vardecl_pre ty name g0
    (match ini with
     | some e =>
       let fb := freshBuf pre.2
       let r := generate_node e (some fb.1) fb.2
       if r.1 then (true, buf, gen_vardecl_store pre.1 name (r.2.1.getD "") r.2.2)
       else (false, buf, r.2.2)
     | none => (true, buf, gen_vardecl_zero pre.1 name pre.2))
  | AST.compoundStmt ss, buf, g =>
    let r := gen_seq ss g
    (r.1, buf, r.2)
  | AST.expressionStmt e, buf, g =>
    (match e with
     | some x =>
       let fb := freshBuf g
       let r := generate_node x (some fb.1) fb.2
       (r.1, buf, r.2.2)
     | none => (true, buf, g))
  | AST.ifStmt cond thenB elseB, buf, g0 =>
    let fb := freshBuf g0
    let rc := generate_node cond (some fb.1) fb.2
    if rc.1 then
      let hd := gen_if_head (rc.2.1.getD "") elseB.isSome rc.2.2
      let rt := generate_node thenB none hd.2
      if rt.1 then
        let g4 := emit rt.2.2 ("  br label %" ++ hd.1.2.2)
        (match elseB with
         | some eb =>
           let re := generate_node eb none (emitLabelLine g4 hd.1.2.1)
           if re.1 then
             (true, buf, emitLabelLine (emit re.2.2 ("  br label %" ++ hd.1.2.2)) hd.1.2.2)
           else (false, buf, re.2.2)
         | none => (true, buf, emitLabelLine g4 hd.1.2.2))
      else (false, buf, rt.2.2)
    else (false, buf, rc.2.2)
  | AST.whileStmt cond body, buf, g0 =>
    let hd := gen_while_head g0
    let fb := freshBuf hd.2
    let rc := generate_node cond (some fb.1) fb.2
    if rc.1 then
      let g4 := emitLabelLine (emit rc.2.2 ("  br i1 %" ++ (rc.2.1.getD "")
          ++ ", label %" ++ hd.1.2.1 ++ ", label %" ++ hd.1.2.2)) hd.1.2.1
      let rb := generate_node body none g4
      if rb.1 then
        (true, buf, emitLabelLine (emit rb.2.2 ("  br label %" ++ hd.1.1)) hd.1.2.2)
      else (false, buf, rb.2.2)
    else (false, buf, rc.2.2)
  | AST.forStmt ini cond incr body, buf, g0 =>
    let ri := gen_opt0 ini g0
    if ri.1 then
      let hd := gen_for_head ri.2
      (match cond with
       | some c =>
         let fb := freshBuf hd.2
         let rc := generate_node c (some fb.1) fb.2
         if rc.1 then
           let g4 := emitLabelLine (emit rc.2.2 ("  br i1 %" ++ (rc.2.1.getD "")
               ++ ", label %" ++ hd.1.2.1 ++ ", label %" ++ hd.1.2.2.2)) hd.1.2.1
           let rb := generate_node body none g4
           if rb.1 then
             let g6 := emitLabelLine (emit rb.2.2 ("  br label %" ++ hd.1.2.2.1)) hd.1.2.2.1
             let rn := gen_opt0 incr g6
             if rn.1 then
               (true, buf, emitLabelLine (emit rn.2 ("  br label %" ++ hd.1.1)) hd.1.2.2.2)
             else (false, buf, rn.2)
           else (false, buf, rb.2.2)
         else (false, buf, rc.2.2)
       | none =>
         let g4 := emitLabelLine (emit hd.2 ("  br label %" ++ hd.1.2.1)) hd.1.2.1
         let rb := generate_node body none g4
         if rb.1 then
           let g6 := emitLabelLine (emit rb.2.2 ("  br label %" ++ hd.1.2.2.1)) hd.1.2.2.1
           let rn := gen_opt0 incr g6
           if rn.1 then
             (true, buf, emitLabelLine (emit rn.2 ("  br label %" ++ hd.1.1)) hd.1.2.2.2)
           else (false, buf, rn.2)
         else (false, buf, rb.2.2))
    else (false, buf, ri.2)
  | AST.returnStmt v, buf, g0 =>
    (match v with
     | some x =>
       let fb := freshBuf g0
       let r := generate_node x (some fb.1) fb.2
       if r.1 then (true, buf, gen_return_post (r.2.1.getD "") r.2.2)
       else (false, buf, r.2.2)
     | none => (true, buf, emit g0 "  ret void"))
  | AST.binaryExpr op l r, buf, g0 =>
    (match buf with
     | none => (false, none, set_error_gen g0 "No result register provided for binary expression")
     | some res =>
       let fbL := freshBuf g0
       let fbR := freshBuf fbL.2
       let rl := generate_node l (some fbL.1) fbR.2
       if rl.1 then
         let rr := generate_node r (some fbR.1) rl.2.2
         if rr.1 then gen_binary_post op res (rl.2.1.getD "") (rr.2.1.getD "") rr.2.2
         else (false, some res, rr.2.2)
       else (false, some res, rl.2.2))
  | AST.unaryExpr op o, buf, g0 =>
    (match buf with
     | none => (false, none, set_error_gen g0 "No result register provided for unary expression")
     | some res =>
       let fb := freshBuf g0
       let r := generate_node o (some fb.1) fb.2
       if r.1 then gen_unary_post op res (r.2.1.getD "") r.2.2
       else (false, some res, r.2.2))
  | AST.callExpr callee args, buf, g0 =>
    let ra := gen_args args 16 g0
    if ra.1 then gen_call_post callee ra.2.1 buf ra.2.2
    else (false, buf, ra.2.2)
  | AST.assignmentExpr target value, buf, g0 =>
    (match target with
     | AST.identifier name =>
       if (find_var g0 name).isSome then
         let fb := freshBuf g0
         let r := generate_node value (some fb.1) fb.2
         if r.1 then gen_assign_post (assignVarType g0 name) name (r.2.1.getD "") buf r.2.2
         else (false, buf, r.2.2)
       else (false, buf, set_error_gen g0 "Undefined variable in assignment")
     | _ => (false, buf, set_error_gen g0 "Assignment target must be an identifier"))
  | AST.identifier name, buf, g0 => gen_identifier name buf g0
  | AST.numberLiteral v, buf, g0 => gen_number v buf g0
  | AST.stringLiteral v, buf, g0 => gen_string v buf g0

/-- The child loops of the program and compound cases (codegen.c 177-181,
276-280): each child runs with a `NULL` result register, stopping at the
first failure. -/
def gen_seq : List AST → CodeGenerator → Bool × CodeGenerator
  | [], g => (true, g)
  | a :: as, g =>
    let r := generate_node a none g
    if r.1 then gen_seq as r.2.2 else (false, r.2.2)

/-- An optional child run with a `NULL` result register (function body,
for-initializer, for-increment). -/
def gen_opt0 : Option AST → CodeGenerator → Bool × CodeGenerator
  | none, g => (true, g)
  | some a, g =>
    let r := generate_node a none g
    (r.1, r.2.2)

/-- The argument-evaluation loop of the call case (codegen.c 516-521):
`for (i = 0; i < argument_count && i < 16; i++)` with the 16 `char [32]`
buffers of `arg_regs`; returns the register text of each evaluated
argument. -/
def gen_args : List AST → Nat → CodeGenerator → Bool × List String × CodeGenerator
  | [], _, g => (true, [], g)
  | _ :: _, 0, g => (true, [], g)
  | a :: as, slots+1, g =>
    let fb := freshBuf g
    let r := generate_node a (some fb.1) fb.2
    if r.1 then
      let rest := gen_args as slots r.2.2
      (rest.1, (r.2.1.getD "") :: rest.2.1, rest.2.2)
    else (false, [], r.2.2)

end

/-- `generate_code` (codegen.c 55-61): clear the error flag and run the root
node against the zero-initialized 32-byte `result_reg` buffer (contents the
empty string). -/
def generate_code (g : CodeGenerator) (ast : AST) : Bool × CodeGenerator :=
  let g1 := { g with has_error := false }
  let r := generate_node ast (some "") g1
  (r.1, r.2.2)

/-! Hand-stated unfolding equations for the `generate_node` group, one per
constructor (specialized on the nested option/buffer matches); each is
definitional. -/

theorem generate_node_program (ds : List AST) (buf : Option String) (g : CodeGenerator) :
    generate_node (AST.program ds) buf g =
      (let r := gen_seq ds g
       (r.1, buf, r.2)) := rfl

theorem generate_node_function (rt name : String) (params : List (String × String))
    (body : Option AST) (buf : Option String) (g0 : CodeGenerator) :
    generate_node (AST.functionDecl rt name params body) buf g0 =
      (let pre := gen_function_pre rt name params g0
       let rb := gen_opt0 body pre.2
       if rb.1 then (true, buf, func_epilogue pre.1 rb.2)
       else (false, buf, rb.2)) := rfl

theorem generate_node_var_some (ty name : String) (e : AST) (buf : Option String)
    (g0 : CodeGenerator) :
    generate_node (AST.variableDecl ty name (some e)) buf g0 =
      (let pre := gen_vardecl_pre ty name g0
       let fb := freshBuf pre.2
       let r := generate_node e (some fb.1) fb.2
       if r.1 then (true, buf, gen_vardecl_store pre.1 name (r.2.1.getD "") r.2.2)
       else (false, buf, r.2.2)) := rfl

theorem generate_node_var_none (ty name : String) (buf : Option String)
    (g0 : CodeGenerator) :
    generate_node (AST.variableDecl ty name none) buf g0 =
      (let pre := gen_vardecl_pre ty name g0
       (true, buf, gen_vardecl_zero pre.1 name pre.2)) := rfl

theorem generate_node_compound (ss : List AST) (buf : Option String) (g : CodeGenerator) :
    generate_node (AST.compoundStmt ss) buf g =
      (let r := gen_seq ss g
       (r.1, buf, r.2)) := rfl

theorem generate_node_exprstmt_some (x : AST) (buf : Option String) (g : CodeGenerator) :
    generate_node (AST.expressionStmt (some x)) buf g =
      (let fb := freshBuf g
       let r := generate_node x (some fb.1) fb.2
       (r.1, buf, r.2.2)) := rfl

theorem generate_node_exprstmt_none (buf : Option String) (g : CodeGenerator) :
    generate_node (AST.expressionStmt none) buf g = (true, buf, g) := rfl

theorem generate_node_if_some (cond thenB eb : AST) (buf : Option String)
    (g0 : CodeGenerator) :
    generate_node (AST.ifStmt cond thenB (some eb)) buf g0 =
      (let fb := freshBuf g0
       let rc := generate_node cond (some fb.1) fb.2
       if rc.1 then
         let hd := gen_if_head (rc.2.1.getD "") true rc.2.2
         let rt := generate_node thenB none hd.2
         if rt.1 then
           let g4 := emit rt.2.2 ("  br label %" ++ hd.1.2.2)
           let re := generate_node eb none (emitLabelLine g4 hd.1.2.1)
           if re.1 then
             (true, buf, emitLabelLine (emit re.2.2 ("  br label %" ++ hd.1.2.2)) hd.1.2.2)
           else (false, buf, re.2.2)
         else (false, buf, rt.2.2)
       else (false, buf, rc.2.2)) := rfl

theorem generate_node_if_none (cond thenB : AST) (buf : Option String)
    (g0 : CodeGenerator) :
    generate_node (AST.ifStmt cond thenB none) buf g0 =
      (let fb := freshBuf g0
       let rc := generate_node cond (some fb.1) fb.2
       if rc.1 then
         let hd := gen_if_head (rc.2.1.getD "") false rc.2.2
         let rt := generate_node thenB none hd.2
         if rt.1 then
           let g4 := emit rt.2.2 ("  br label %" ++ hd.1.2.2)
           (true, buf, emitLabelLine g4 hd.1.2.2)
         else (false, buf, rt.2.2)
       else (false, buf, rc.2.2)) := rfl

theorem generate_node_while (cond body : AST) (buf : Option String)
    (g0 : CodeGenerator) :
    generate_node (AST.whileStmt cond body) buf g0 =
      (let hd := gen_while_head g0
       let fb := freshBuf hd.2
       let rc := generate_node cond (some fb.1) fb.2
       if rc.1 then
         let g4 := emitLabelLine (emit rc.2.2 ("  br i1 %" ++ (rc.2.1.getD "")
             ++ ", label %" ++ hd.1.2.1 ++ ", label %" ++ hd.1.2.2)) hd.1.2.1
         let rb := generate_node body none g4
         if rb.1 then
           (true, buf, emitLabelLine (emit rb.2.2 ("  br label %" ++ hd.1.1)) hd.1.2.2)
         else (false, buf, rb.2.2)
       else (false, buf, rc.2.2)) := rfl

theorem generate_node_for_some (ini : Option AST) (c : AST) (incr : Option AST)
    (body : AST) (buf : Option String) (g0 : CodeGenerator) :
    generate_node (AST.forStmt ini (some c) incr body) buf g0 =
      (let ri := gen_opt0 ini g0
       if ri.1 then
         let hd := gen_for_head ri.2
         let fb := freshBuf hd.2
         let rc := generate_node c (some fb.1) fb.2
         if rc.1 then
           let g4 := emitLabelLine (emit rc.2.2 ("  br i1 %" ++ (rc.2.1.getD "")
               ++ ", label %" ++ hd.1.2.1 ++ ", label %" ++ hd.1.2.2.2)) hd.1.2.1
           let rb := generate_node body none g4
           if rb.1 then
             let g6 := emitLabelLine (emit rb.2.2 ("  br label %" ++ hd.1.2.2.1)) hd.1.2.2.1
             let rn := gen_opt0 incr g6
             if rn.1 then
               (true, buf, emitLabelLine (emit rn.2 ("  br label %" ++ hd.1.1)) hd.1.2.2.2)
             else (false, buf, rn.2)
           else (false, buf, rb.2.2)
         else (false, buf, rc.2.2)
       else (false, buf, ri.2)) := rfl

theorem generate_node_for_none (ini incr : Option AST) (body : AST)
    (buf : Option String) (g0 : CodeGenerator) :
    generate_node (AST.forStmt ini none incr body) buf g0 =
      (let ri := gen_opt0 ini g0
       if ri.1 then
         let hd := gen_for_head ri.2
         let g4 := emitLabelLine (emit hd.2 ("  br label %" ++ hd.1.2.1)) hd.1.2.1
         let rb := generate_node body none g4
         if rb.1 then
           let g6 := emitLabelLine (emit rb.2.2 ("  br label %" ++ hd.1.2.2.1)) hd.1.2.2.1
           let rn := gen_opt0 incr g6
           if rn.1 then
             (true, buf, emitLabelLine (emit rn.2 ("  br label %" ++ hd.1.1)) hd.1.2.2.2)
           else (false, buf, rn.2)
         else (false, buf, rb.2.2)
       else (false, buf, ri.2)) := rfl

theorem generate_node_return_some (x : AST) (buf : Option String) (g0 : CodeGenerator) :
    generate_node (AST.returnStmt (some x)) buf g0 =
      (let fb := freshBuf g0
       let r := generate_node x (some fb.1) fb.2
       if r.1 then (true, buf, gen_return_post (r.2.1.getD "") r.2.2)
       else (false, buf, r.2.2)) := rfl

theorem generate_node_return_none (buf : Option String) (g0 : CodeGenerator) :
    generate_node (AST.returnStmt none) buf g0 = (true, buf, emit g0 "  ret void") := rfl

theorem generate_node_binary_nobuf (op : String) (l r : AST) (g0 : CodeGenerator) :
    generate_node (AST.binaryExpr op l r) none g0 =
      (false, none, set_error_gen g0 "No result register provided for binary expression") := rfl

theorem generate_node_binary_buf (op : String) (l r : AST) (res : String)
    (g0 : CodeGenerator) :
    generate_node (AST.binaryExpr op l r) (some res) g0 =
      (let fbL := freshBuf g0
       let fbR := freshBuf fbL.2
       let rl := generate_node l (some fbL.1) fbR.2
       if rl.1 then
         let rr := generate_node r (some fbR.1) rl.2.2
         if rr.1 then gen_binary_post op res (rl.2.1.getD "") (rr.2.1.getD "") rr.2.2
         else (false, some res, rr.2.2)
       else (false, some res, rl.2.2)) := rfl

theorem generate_node_unary_nobuf (op : String) (o : AST) (g0 : CodeGenerator) :
    generate_node (AST.unaryExpr op o) none g0 =
      (false, none, set_error_gen g0 "No result register provided for unary expression") := rfl

theorem generate_node_unary_buf (op : String) (o : AST) (res : String)
    (g0 : CodeGenerator) :
    generate_node (AST.unaryExpr op o) (some res) g0 =
      (let fb := freshBuf g0
       let r := generate_node o (some fb.1) fb.2
       if r.1 then gen_unary_post op res (r.2.1.getD "") r.2.2
       else (false, some res, r.2.2)) := rfl

theorem generate_node_call (callee : String) (args : List AST) (buf : Option String)
    (g0 : CodeGenerator) :
    generate_node (AST.callExpr callee args) buf g0 =
      (let ra := gen_args args 16 g0
       if ra.1 then gen_call_post callee ra.2.1 buf ra.2.2
       else (false, buf, ra.2.2)) := rfl

theorem generate_node_assign_ident (name : String) (value : AST) (buf : Option String)
    (g0 : CodeGenerator) :
    generate_node (AST.assignmentExpr (AST.identifier name) value) buf g0 =
      (if (find_var g0 name).isSome then
         let fb := freshBuf g0
         let r := generate_node value (some fb.1) fb.2
         if r.1 then gen_assign_post (assignVarType g0 name) name (r.2.1.getD "") buf r.2.2
         else (false, buf, r.2.2)
       else (false, buf, set_error_gen g0 "Undefined variable in assignment")) := rfl

theorem generate_node_assign_other (target value : AST) (buf : Option String)
    (g0 : CodeGenerator) (h : AST.isIdentifierNode target = false) :
    generate_node (AST.assignmentExpr target value) buf g0 =
      (false, buf, set_error_gen g0 "Assignment target must be an identifier") := by
  cases target <;> first
    | rfl
    | simp [AST.isIdentifierNode] at h

theorem generate_node_ident (name : String) (buf : Option String) (g0 : CodeGenerator) :
    generate_node (AST.identifier name) buf g0 = gen_identifier name buf g0 := rfl

theorem generate_node_number (v : String) (buf : Option String) (g0 : CodeGenerator) :
    generate_node (AST.numberLiteral v) buf g0 = gen_number v buf g0 := rfl

theorem generate_node_string (v : String) (buf : Option String) (g0 : CodeGenerator) :
    generate_node (AST.stringLiteral v) buf g0 = gen_string v buf g0 := rfl

theorem gen_seq_nil (g : CodeGenerator) : gen_seq [] g = (true, g) := rfl

theorem gen_seq_cons (a : AST) (as : List AST) (g : CodeGenerator) :
    gen_seq (a :: as) g =
      (let r := generate_node a none g
       if r.1 then gen_seq as r.2.2 else (false, r.2.2)) := rfl

theorem gen_opt0_none (g : CodeGenerator) : gen_opt0 none g = (true, g) := rfl

theorem gen_opt0_some (a : AST) (g : CodeGenerator) :
    gen_opt0 (some a) g =
      (let r := generate_node a none g
       (r.1, r.2.2)) := rfl

theorem gen_args_nil (slots : Nat) (g : CodeGenerator) :
    gen_args [] slots g = (true, [], g) := rfl

theorem gen_args_zero (a : AST) (as : List AST) (g : CodeGenerator) :
    gen_args (a :: as) 0 g = (true, [], g) := rfl

theorem gen_args_cons (a : AST) (as : List AST) (slots : Nat) (g : CodeGenerator) :
    gen_args (a :: as) (slots + 1) g =
      (let fb := freshBuf g
       let r := generate_node a (some fb.1) fb.2
       if r.1 then
         let rest := gen_args as slots r.2.2
         (rest.1, (r.2.1.getD "") :: rest.2.1, rest.2.2)
       else (false, [], r.2.2)) := rfl

/-- The argument loop evaluates at most as many arguments as it has `arg_regs`
buffers, exactly the first `slots` of the list. -/
theorem gen_args_take (args : List AST) : ∀ (slots : Nat) (g : CodeGenerator),
    gen_args args slots g = gen_args (args.take slots) slots g := by
  induction args with
  | nil => intro slots g; rw [List.take_nil]
  | cons a as ih =>
    intro slots g
    cases slots with
    | zero => rfl
    | succ s =>
      rw [gen_args_cons, List.take_succ_cons, gen_args_cons]
      simp only
      rw [ih]

/-- A 17-argument call: number literals 1-17. -/
def call17Args : List AST :=
  [AST.numberLiteral "1", AST.numberLiteral "2", AST.numberLiteral "3",
   AST.numberLiteral "4", AST.numberLiteral "5", AST.numberLiteral "6",
   AST.numberLiteral "7", AST.numberLiteral "8", AST.numberLiteral "9",
   AST.numberLiteral "10", AST.numberLiteral "11", AST.numberLiteral "12",
   AST.numberLiteral "13", AST.numberLiteral "14", AST.numberLiteral "15",
   AST.numberLiteral "16", AST.numberLiteral "17"]

/-- A junk supply naming the indeterminate contents of the 17 result buffers
a 17-argument call would draw (the 17th is never drawn). -/
def call17Junk : List String :=
  ["a1", "a2", "a3", "a4", "a5", "a6", "a7", "a8", "a9", "a10", "a11", "a12",
   "a13", "a14", "a15", "a16", "a17"]

/-- C10: a Call node with more than 16 arguments generates exactly as the
same call truncated to its first 16 arguments (in particular arguments past
the 16th are neither evaluated nor emitted), and no error is raised.  On a
concrete 17-argument call the generation succeeds with a clean error state,
the 17th argument's buffer is never drawn from the junk supply, and the
emitted `call` carries exactly the 16 evaluated operand registers. -/
theorem claim_C10_call_args_truncated :
    (∀ (callee : String) (args : List AST) (buf : Option String) (g : CodeGenerator),
      generate_node (AST.callExpr callee args) buf g =
        generate_node (AST.callExpr callee (args.take 16)) buf g)
    ∧ (generate_node (AST.callExpr "f" call17Args) (some "r")
        (init_code_generator call17Junk)).1 = true
    ∧ (generate_node (AST.callExpr "f" call17Args) (some "r")
        (init_code_generator call17Junk)).2.2.has_error = false
    ∧ (generate_node (AST.callExpr "f" call17Args) (some "r")
        (init_code_generator call17Junk)).2.2.error_message = ""
    ∧ (generate_node (AST.callExpr "f" call17Args) (some "r")
        (init_code_generator call17Junk)).2.2.junk = ["a17"]
    ∧ (generate_node (AST.callExpr "f" call17Args) (some "r")
        (init_code_generator call17Junk)).2.2.output =
      preamble ++
        ["  %a1 = add i32 1, 0", "  %a2 = add i32 2, 0", "  %a3 = add i32 3, 0",
         "  %a4 = add i32 4, 0", "  %a5 = add i32 5, 0", "  %a6 = add i32 6, 0",
         "  %a7 = add i32 7, 0", "  %a8 = add i32 8, 0", "  %a9 = add i32 9, 0",
         "  %a10 = add i32 10, 0", "  %a11 = add i32 11, 0", "  %a12 = add i32 12, 0",
         "  %a13 = add i32 13, 0", "  %a14 = add i32 14, 0", "  %a15 = add i32 15, 0",
         "  %a16 = add i32 16, 0",
         "  %r = call i32 @f(i32 %a1, i32 %a2, i32 %a3, i32 %a4, i32 %a5, i32 %a6, i32 %a7, i32 %a8, i32 %a9, i32 %a10, i32 %a11, i32 %a12, i32 %a13, i32 %a14, i32 %a15, i32 %a16)"] := by
  refine ⟨?_, rfl, rfl, rfl, rfl, rfl⟩
  intro callee args buf g
  rw [generate_node_call, generate_node_call, gen_args_take]

/-- The source text `int main() { return 42; }`. -/
def mainReturn42Src : List Char := "int main() \x7b return 42; \x7d".toList

/-- Its token stream. -/
def mainReturn42Tokens : List Token :=
  [⟨TokenType.KEYWORD, "int"⟩, ⟨TokenType.IDENTIFIER, "main"⟩,
   ⟨TokenType.PUNCTUATOR, "("⟩, ⟨TokenType.PUNCTUATOR, ")"⟩,
   ⟨TokenType.PUNCTUATOR, "\x7b"⟩, ⟨TokenType.KEYWORD, "return"⟩,
   ⟨TokenType.NUMBER, "42"⟩, ⟨TokenType.PUNCTUATOR, ";"⟩,
   ⟨TokenType.PUNCTUATOR, "\x7d"⟩, eofToken]

/-- Its AST. -/
def mainReturn42Ast : AST :=
  AST.program [AST.functionDecl "int" "main" []
    (some (AST.compoundStmt [AST.returnStmt (some (AST.numberLiteral "42"))]))]

/-- The IR lines the code generator actually produces for it when the one
uninitialized `value_reg` buffer of the return statement happens to hold
`"u0"`. -/
def mainReturn42Output : List String :=
  preamble ++
    ["define i32 @main() \x7b", "entry:", "  %u0 = add i32 42, 0",
     "  ret i32 %u0", "  ret i32 0", "\x7d", ""]

set_option maxHeartbeats 1000000 in
theorem tokenize_mainReturn42 : tokenize mainReturn42Src = mainReturn42Tokens := by
  simp [mainReturn42Src, mainReturn42Tokens, tokenize.eq_def, get_next_token,
    skipWsComments.eq_def, isSpaceC, isAlphaC, isDigitC, isPunctC, isAlnumC,
    keywords, is_keyword, opTok, eofToken, readStringBody.eq_def]

/-- C1 REFUTED: the number-literal case of `generate_node` never draws a
fresh `t0,t1,...` register: it prints the uninitialized caller buffer as its
result register and leaves the temporary counter untouched.  Compiling
`int main() \x7b return 42; \x7d` (tokenizer, parser, code generator, with
`"u0"` as the indeterminate contents of the return statement's `value_reg`
buffer) yields a define line, `alloca`-free body and terminal `ret i32 0`
followed by `\x7d` as claimed, but the literal instruction is
`%u0 = add i32 42, 0` followed by `ret i32 %u0` - the register named by the
junk buffer contents, not `%t0`, which appears nowhere; the temporary counter
finishes at 0. -/
theorem claim_C1_result_register_never_fresh :
    (∀ (g : CodeGenerator) (buf v : String),
      generate_node (AST.numberLiteral v) (some buf) g =
        (true, some buf, emit g ("  %" ++ buf ++ " = add i32 " ++ v ++ ", 0")))
    ∧ (∀ (g : CodeGenerator) (buf v : String),
        (generate_node (AST.numberLiteral v) (some buf) g).2.2.temp_counter = g.temp_counter)
    ∧ tokenize mainReturn42Src = mainReturn42Tokens
    ∧ (parse_program 20 (initParser mainReturn42Tokens)).1 = mainReturn42Ast
    ∧ (generate_code (init_code_generator ["u0"]) mainReturn42Ast).1 = true
    ∧ (generate_code (init_code_generator ["u0"]) mainReturn42Ast).2.output = mainReturn42Output
    ∧ (generate_code (init_code_generator ["u0"]) mainReturn42Ast).2.temp_counter = 0
    ∧ (generate_code (init_code_generator ["u0"]) mainReturn42Ast).2.has_error = false
    ∧ "define i32 @main() \x7b" ∈ mainReturn42Output
    ∧ "  ret i32 0" ∈ mainReturn42Output
    ∧ "\x7d" ∈ mainReturn42Output
    ∧ mainReturn42Output.all (fun l => !(decide ("alloca".toList <:+: l.toList))) = true
    ∧ mainReturn42Output.all (fun l => !(decide ("%t0".toList <:+: l.toList))) = true
    ∧ "  %u0 = add i32 42, 0" ∈ mainReturn42Output
    ∧ "  ret i32 %u0" ∈ mainReturn42Output := by
  refine ⟨fun g buf v => rfl, fun g buf v => rfl, tokenize_mainReturn42, rfl, rfl, rfl,
    rfl, rfl, by decide, by decide, by decide, by decide, by decide, by decide, by decide⟩

/-- The error message of the assignment-target guard (codegen.c 550). -/
def assignTargetMsg : String := "Code generation error: Assignment target must be an identifier"

theorem emit_msg (g : CodeGenerator) (l : String) :
    (emit g l).error_message = g.error_message := rfl

theorem set_error_gen_msg (g : CodeGenerator) (m : String) :
    (set_error_gen g m).error_message = "Code generation error: " ++ m := rfl

theorem set_error_gen_ne (g : CodeGenerator) (m : String)
    (hm : "Code generation error: " ++ m ≠ assignTargetMsg) :
    (set_error_gen g m).error_message ≠ assignTargetMsg := by
  rw [set_error_gen_msg]
  exact hm

theorem generate_temp_msg (g : CodeGenerator) :
    (generate_temp g).2.error_message = g.error_message := rfl

theorem generate_label_msg (g : CodeGenerator) :
    (generate_label g).2.error_message = g.error_message := rfl

theorem freshBuf_msg (g : CodeGenerator) :
    (freshBuf g).2.error_message = g.error_message := by
  cases hj : g.junk <;> simp [freshBuf, hj]

theorem emitLabelLine_msg (g : CodeGenerator) (l : String) :
    (emitLabelLine g l).error_message = g.error_message := rfl

theorem add_local_var_msg (g : CodeGenerator) (n : String) (t : TypeInfo) (b : Bool)
    (h : g.error_message ≠ assignTargetMsg) :
    (add_local_var g n t b).error_message ≠ assignTargetMsg := by
  unfold add_local_var
  split
  · exact set_error_gen_ne _ _ (by decide)
  · split
    · exact h
    · exact h

theorem add_function_msg (g : CodeGenerator) (n : String) (t : TypeInfo)
    (h : g.error_message ≠ assignTargetMsg) :
    (add_function g n t).error_message ≠ assignTargetMsg := by
  unfold add_function
  split
  · exact set_error_gen_ne _ _ (by decide)
  · exact h

theorem gen_params_msg (ps : List (String × String)) : ∀ (first : Bool) (g : CodeGenerator),
    g.error_message ≠ assignTargetMsg →
    (gen_params ps first g).2.error_message ≠ assignTargetMsg := by
  induction ps with
  | nil => intro first g h; exact h
  | cons p rest ih =>
    obtain ⟨pt, pn⟩ := p
    intro first g h
    exact ih false _ (add_local_var_msg _ _ _ _ h)

theorem gen_function_pre_msg (rt name : String) (params : List (String × String))
    (g : CodeGenerator) (h : g.error_message ≠ assignTargetMsg) :
    (gen_function_pre rt name params g).2.error_message ≠ assignTargetMsg := by
  unfold gen_function_pre
  dsimp only
  simp only [emit_msg]
  exact gen_params_msg params true _ (add_function_msg _ _ _ h)

theorem func_epilogue_msg (t : TypeInfo) (g : CodeGenerator) :
    (func_epilogue t g).error_message = g.error_message := by
  unfold func_epilogue
  split <;> rfl

theorem gen_vardecl_pre_msg (ty name : String) (g : CodeGenerator)
    (h : g.error_message ≠ assignTargetMsg) :
    (gen_vardecl_pre ty name g).2.error_message ≠ assignTargetMsg := by
  unfold gen_vardecl_pre
  dsimp only
  exact add_local_var_msg _ _ _ _ h

theorem gen_vardecl_store_msg (t : TypeInfo) (n c : String) (g : CodeGenerator) :
    (gen_vardecl_store t n c g).error_message = g.error_message := by
  unfold gen_vardecl_store
  split <;> rfl

theorem gen_vardecl_zero_msg (t : TypeInfo) (n : String) (g : CodeGenerator) :
    (gen_vardecl_zero t n g).error_message = g.error_message := rfl

theorem gen_return_post_msg (c : String) (g : CodeGenerator) :
    (gen_return_post c g).error_message = g.error_message := rfl

theorem gen_if_head_msg (c : String) (b : Bool) (g : CodeGenerator) :
    (gen_if_head c b g).2.error_message = g.error_message := rfl

theorem gen_while_head_msg (g : CodeGenerator) :
    (gen_while_head g).2.error_message = g.error_message := rfl

theorem gen_for_head_msg (g : CodeGenerator) :
    (gen_for_head g).2.error_message = g.error_message := rfl

theorem gen_binary_post_msg (op res lc rc : String) (g : CodeGenerator)
    (h : g.error_message ≠ assignTargetMsg) :
    (gen_binary_post op res lc rc g).2.2.error_message ≠ assignTargetMsg := by
  unfold gen_binary_post
  split
  · exact set_error_gen_ne _ _ (by decide)
  · dsimp only
    split
    · simp only [emit_msg, generate_temp_msg]
      exact h
    · simp only [emit_msg]
      exact h

theorem gen_unary_post_msg (op res oc : String) (g : CodeGenerator)
    (h : g.error_message ≠ assignTargetMsg) :
    (gen_unary_post op res oc g).2.2.error_message ≠ assignTargetMsg := by
  unfold gen_unary_post
  split
  · simp only [emit_msg]
    exact h
  · split
    · simp only [emit_msg, generate_temp_msg]
      exact h
    · exact set_error_gen_ne _ _ (by decide)

theorem gen_call_post_msg (callee : String) (contents : List String)
    (buf : Option String) (g : CodeGenerator) :
    (gen_call_post callee contents buf g).2.2.error_message = g.error_message := by
  cases buf with
  | none => rfl
  | some res =>
    unfold gen_call_post
    dsimp only
    split <;> rfl

theorem gen_assign_post_msg (vt : TypeInfo) (n vc : String) (buf : Option String)
    (g : CodeGenerator) :
    (gen_assign_post vt n vc buf g).2.2.error_message = g.error_message := by
  cases buf <;> rfl

theorem gen_identifier_msg (name : String) (buf : Option String) (g : CodeGenerator)
    (h : g.error_message ≠ assignTargetMsg) :
    (gen_identifier name buf g).2.2.error_message ≠ assignTargetMsg := by
  cases buf with
  | none => exact set_error_gen_ne _ _ (by decide)
  | some res =>
    unfold gen_identifier
    dsimp only
    split
    · exact set_error_gen_ne _ _ (by decide)
    · split
      · simp only [emit_msg]
        exact h
      · exact h

theorem gen_number_msg (v : String) (buf : Option String) (g : CodeGenerator)
    (h : g.error_message ≠ assignTargetMsg) :
    (gen_number v buf g).2.2.error_message ≠ assignTargetMsg := by
  cases buf with
  | none => exact set_error_gen_ne _ _ (by decide)
  | some res => exact h

theorem gen_string_msg (v : String) (buf : Option String) (g : CodeGenerator)
    (h : g.error_message ≠ assignTargetMsg) :
    (gen_string v buf g).2.2.error_message ≠ assignTargetMsg := by
  cases buf with
  | none => exact set_error_gen_ne _ _ (by decide)
  | some res => exact h

mutual

/-- Over any tree satisfying invariant I1 (`assignOk`), `generate_node` never
produces the assignment-target diagnostic: the guard in the assignment case
is the only occurrence of that message and I1 rules its branch out. -/
theorem generate_node_msg (a : AST) : ∀ (buf : Option String) (g : CodeGenerator),
    assignOk a = true → g.error_message ≠ assignTargetMsg →
    (generate_node a buf g).2.2.error_message ≠ assignTargetMsg := by
  cases a with
  | program ds =>
    intro buf g hok hmsg
    rw [generate_node_program]
    dsimp only
    exact gen_seq_msg ds g (by simpa [assignOk] using hok) hmsg
  | functionDecl rt name params body =>
    intro buf g hok hmsg
    simp only [assignOk] at hok
    rw [generate_node_function]
    dsimp only
    split
    · simp only [func_epilogue_msg]
      exact gen_opt0_msg body _ hok (gen_function_pre_msg rt name params g hmsg)
    · exact gen_opt0_msg body _ hok (gen_function_pre_msg rt name params g hmsg)
  | variableDecl ty name ini =>
    intro buf g hok hmsg
    cases ini with
    | some e =>
      simp only [assignOk, assignOkOpt] at hok
      rw [generate_node_var_some]
      dsimp only
      split
      · rw [gen_vardecl_store_msg]
        refine generate_node_msg e _ _ hok ?_
        rw [freshBuf_msg]
        exact gen_vardecl_pre_msg ty name g hmsg
      · refine generate_node_msg e _ _ hok ?_
        rw [freshBuf_msg]
        exact gen_vardecl_pre_msg ty name g hmsg
    | none =>
      rw [generate_node_var_none]
      dsimp only
      rw [gen_vardecl_zero_msg]
      exact gen_vardecl_pre_msg ty name g hmsg
  | compoundStmt ss =>
    intro buf g hok hmsg
    rw [generate_node_compound]
    dsimp only
    exact gen_seq_msg ss g (by simpa [assignOk] using hok) hmsg
  | expressionStmt e =>
    intro buf g hok hmsg
    cases e with
    | some x =>
      simp only [assignOk, assignOkOpt] at hok
      rw [generate_node_exprstmt_some]
      dsimp only
      refine generate_node_msg x _ _ hok ?_
      rw [freshBuf_msg]
      exact hmsg
    | none =>
      rw [generate_node_exprstmt_none]
      exact hmsg
  | ifStmt cond thenB elseB =>
    intro buf g hok hmsg
    simp only [assignOk, Bool.and_eq_true] at hok
    obtain ⟨⟨hok1, hok2⟩, hok3⟩ := hok
    cases elseB with
    | some eb =>
      simp only [assignOkOpt] at hok3
      rw [generate_node_if_some]
      dsimp only
      split
      · split
        · split
          · simp only [emitLabelLine_msg, emit_msg]
            refine generate_node_msg eb none _ hok3 ?_
            simp only [emitLabelLine_msg, emit_msg, gen_if_head_msg]
            refine generate_node_msg thenB none _ hok2 ?_
            simp only [gen_if_head_msg]
            refine generate_node_msg cond _ _ hok1 ?_
            rw [freshBuf_msg]
            exact hmsg
          · refine generate_node_msg eb none _ hok3 ?_
            simp only [emitLabelLine_msg, emit_msg, gen_if_head_msg]
            refine generate_node_msg thenB none _ hok2 ?_
            simp only [gen_if_head_msg]
            refine generate_node_msg cond _ _ hok1 ?_
            rw [freshBuf_msg]
            exact hmsg
        · refine generate_node_msg thenB none _ hok2 ?_
          simp only [gen_if_head_msg]
          refine generate_node_msg cond _ _ hok1 ?_
          rw [freshBuf_msg]
          exact hmsg
      · refine generate_node_msg cond _ _ hok1 ?_
        rw [freshBuf_msg]
        exact hmsg
    | none =>
      rw [generate_node_if_none]
      dsimp only
      split
      · split
        · simp only [emitLabelLine_msg, emit_msg]
          refine generate_node_msg thenB none _ hok2 ?_
          simp only [gen_if_head_msg]
          refine generate_node_msg cond _ _ hok1 ?_
          rw [freshBuf_msg]
          exact hmsg
        · refine generate_node_msg thenB none _ hok2 ?_
          simp only [gen_if_head_msg]
          refine generate_node_msg cond _ _ hok1 ?_
          rw [freshBuf_msg]
          exact hmsg
      · refine generate_node_msg cond _ _ hok1 ?_
        rw [freshBuf_msg]
        exact hmsg
  | whileStmt cond body =>
    intro buf g hok hmsg
    simp only [assignOk, Bool.and_eq_true] at hok
    obtain ⟨hok1, hok2⟩ := hok
    rw [generate_node_while]
    dsimp only
    split
    · split
      · simp only [emitLabelLine_msg, emit_msg]
        refine generate_node_msg body none _ hok2 ?_
        simp only [emitLabelLine_msg, emit_msg]
        refine generate_node_msg cond _ _ hok1 ?_
        simp only [freshBuf_msg, gen_while_head_msg]
        exact hmsg
      · refine generate_node_msg body none _ hok2 ?_
        simp only [emitLabelLine_msg, emit_msg]
        refine generate_node_msg cond _ _ hok1 ?_
        simp only [freshBuf_msg, gen_while_head_msg]
        exact hmsg
    · refine generate_node_msg cond _ _ hok1 ?_
      simp only [freshBuf_msg, gen_while_head_msg]
      exact hmsg
  | forStmt ini cond incr body =>
    intro buf g hok hmsg
    simp only [assignOk, Bool.and_eq_true] at hok
    obtain ⟨⟨⟨hok1, hok2⟩, hok3⟩, hok4⟩ := hok
    cases cond with
    | some c =>
      simp only [assignOkOpt] at hok2
      rw [generate_node_for_some]
      dsimp only
      split
      · split
        · split
          · split
            · simp only [emitLabelLine_msg, emit_msg]
              refine gen_opt0_msg incr _ hok3 ?_
              simp only [emitLabelLine_msg, emit_msg]
              refine generate_node_msg body none _ hok4 ?_
              simp only [emitLabelLine_msg, emit_msg]
              refine generate_node_msg c _ _ hok2 ?_
              simp only [freshBuf_msg, gen_for_head_msg]
              exact gen_opt0_msg ini _ hok1 hmsg
            · refine gen_opt0_msg incr _ hok3 ?_
              simp only [emitLabelLine_msg, emit_msg]
              refine generate_node_msg body none _ hok4 ?_
              simp only [emitLabelLine_msg, emit_msg]
              refine generate_node_msg c _ _ hok2 ?_
              simp only [freshBuf_msg, gen_for_head_msg]
              exact gen_opt0_msg ini _ hok1 hmsg
          · refine generate_node_msg body none _ hok4 ?_
            simp only [emitLabelLine_msg, emit_msg]
            refine generate_node_msg c _ _ hok2 ?_
            simp only [freshBuf_msg, gen_for_head_msg]
            exact gen_opt0_msg ini _ hok1 hmsg
        · refine generate_node_msg c _ _ hok2 ?_
          simp only [freshBuf_msg, gen_for_head_msg]
          exact gen_opt0_msg ini _ hok1 hmsg
      · exact gen_opt0_msg ini _ hok1 hmsg
    | none =>
      rw [generate_node_for_none]
      dsimp only
      split
      · split
        · split
          · simp only [emitLabelLine_msg, emit_msg]
            refine gen_opt0_msg incr _ hok3 ?_
            simp only [emitLabelLine_msg, emit_msg]
            refine generate_node_msg body none _ hok4 ?_
            simp only [emitLabelLine_msg, emit_msg, gen_for_head_msg]
            exact gen_opt0_msg ini _ hok1 hmsg
          · refine gen_opt0_msg incr _ hok3 ?_
            simp only [emitLabelLine_msg, emit_msg]
            refine generate_node_msg body none _ hok4 ?_
            simp only [emitLabelLine_msg, emit_msg, gen_for_head_msg]
            exact gen_opt0_msg ini _ hok1 hmsg
        · refine generate_node_msg body none _ hok4 ?_
          simp only [emitLabelLine_msg, emit_msg, gen_for_head_msg]
          exact gen_opt0_msg ini _ hok1 hmsg
      · exact gen_opt0_msg ini _ hok1 hmsg
  | returnStmt v =>
    intro buf g hok hmsg
    cases v with
    | some x =>
      simp only [assignOk, assignOkOpt] at hok
      rw [generate_node_return_some]
      dsimp only
      split
      · rw [gen_return_post_msg]
        refine generate_node_msg x _ _ hok ?_
        rw [freshBuf_msg]
        exact hmsg
      · refine generate_node_msg x _ _ hok ?_
        rw [freshBuf_msg]
        exact hmsg
    | none =>
      rw [generate_node_return_none]
      dsimp only
      rw [emit_msg]
      exact hmsg
  | binaryExpr op l r =>
    intro buf g hok hmsg
    simp only [assignOk, Bool.and_eq_true] at hok
    obtain ⟨hok1, hok2⟩ := hok
    cases buf with
    | none =>
      rw [generate_node_binary_nobuf]
      dsimp only
      exact set_error_gen_ne _ _ (by decide)
    | some res =>
      rw [generate_node_binary_buf]
      dsimp only
      split
      · split
        · refine gen_binary_post_msg op res _ _ _ ?_
          refine generate_node_msg r _ _ hok2 ?_
          refine generate_node_msg l _ _ hok1 ?_
          simp only [freshBuf_msg]
          exact hmsg
        · refine generate_node_msg r _ _ hok2 ?_
          refine generate_node_msg l _ _ hok1 ?_
          simp only [freshBuf_msg]
          exact hmsg
      · refine generate_node_msg l _ _ hok1 ?_
        simp only [freshBuf_msg]
        exact hmsg
  | unaryExpr op o =>
    intro buf g hok hmsg
    simp only [assignOk] at hok
    cases buf with
    | none =>
      rw [generate_node_unary_nobuf]
      dsimp only
      exact set_error_gen_ne _ _ (by decide)
    | some res =>
      rw [generate_node_unary_buf]
      dsimp only
      split
      · refine gen_unary_post_msg op res _ _ ?_
        refine generate_node_msg o _ _ hok ?_
        rw [freshBuf_msg]
        exact hmsg
      · refine generate_node_msg o _ _ hok ?_
        rw [freshBuf_msg]
        exact hmsg
  | callExpr callee args =>
    intro buf g hok hmsg
    simp only [assignOk] at hok
    rw [generate_node_call]
    dsimp only
    split
    · rw [gen_call_post_msg]
      exact gen_args_msg args 16 g hok hmsg
    · exact gen_args_msg args 16 g hok hmsg
  | assignmentExpr target value =>
    intro buf g hok hmsg
    simp only [assignOk, Bool.and_eq_true] at hok
    obtain ⟨⟨hid, _⟩, hval⟩ := hok
    obtain ⟨name, rfl⟩ : ∃ n, target = AST.identifier n := by
      cases target <;> first
        | exact ⟨_, rfl⟩
        | simp [AST.isIdentifierNode] at hid
    rw [generate_node_assign_ident]
    split
    · dsimp only
      split
      · rw [gen_assign_post_msg]
        refine generate_node_msg value _ _ hval ?_
        rw [freshBuf_msg]
        exact hmsg
      · refine generate_node_msg value _ _ hval ?_
        rw [freshBuf_msg]
        exact hmsg
    · exact set_error_gen_ne _ _ (by decide)
  | identifier name =>
    intro buf g _ hmsg
    rw [generate_node_ident]
    exact gen_identifier_msg name buf g hmsg
  | numberLiteral v =>
    intro buf g _ hmsg
    rw [generate_node_number]
    exact gen_number_msg v buf g hmsg
  | stringLiteral v =>
    intro buf g _ hmsg
    rw [generate_node_string]
    exact gen_string_msg v buf g hmsg

/-- As `generate_node_msg`, for the statement loops. -/
theorem gen_seq_msg (l : List AST) : ∀ (g : CodeGenerator),
    assignOkList l = true → g.error_message ≠ assignTargetMsg →
    (gen_seq l g).2.error_message ≠ assignTargetMsg := by
  cases l with
  | nil =>
    intro g _ hmsg
    rw [gen_seq_nil]
    exact hmsg
  | cons a as =>
    intro g hok hmsg
    simp only [assignOkList, Bool.and_eq_true] at hok
    obtain ⟨hok1, hok2⟩ := hok
    rw [gen_seq_cons]
    dsimp only
    split
    · exact gen_seq_msg as _ hok2 (generate_node_msg a none g hok1 hmsg)
    · exact generate_node_msg a none g hok1 hmsg

/-- As `generate_node_msg`, for an optional child. -/
theorem gen_opt0_msg (o : Option AST) : ∀ (g : CodeGenerator),
    assignOkOpt o = true → g.error_message ≠ assignTargetMsg →
    (gen_opt0 o g).2.error_message ≠ assignTargetMsg := by
  cases o with
  | none =>
    intro g _ hmsg
    rw [gen_opt0_none]
    exact hmsg
  | some a =>
    intro g hok hmsg
    simp only [assignOkOpt] at hok
    rw [gen_opt0_some]
    dsimp only
    exact generate_node_msg a none g hok hmsg

/-- As `generate_node_msg`, for the call-argument loop. -/
theorem gen_args_msg (l : List AST) : ∀ (slots : Nat) (g : CodeGenerator),
    assignOkList l = true → g.error_message ≠ assignTargetMsg →
    (gen_args l slots g).2.2.error_message ≠ assignTargetMsg := by
  cases l with
  | nil =>
    intro slots g _ hmsg
    rw [gen_args_nil]
    exact hmsg
  | cons a as =>
    intro slots g hok hmsg
    simp only [assignOkList, Bool.and_eq_true] at hok
    obtain ⟨hok1, hok2⟩ := hok
    cases slots with
    | zero =>
      rw [gen_args_zero]
      exact hmsg
    | succ s =>
      rw [gen_args_cons]
      dsimp only
      split
      · exact gen_args_msg as s _ hok2
          (generate_node_msg a _ _ hok1 (by rw [freshBuf_msg]; exact hmsg))
      · exact generate_node_msg a _ _ hok1 (by rw [freshBuf_msg]; exact hmsg)

end

/-- C6: every Assignment node in an AST returned by the parser has an
Identifier target (for every fuel bound and parser state); under that
invariant the code generator's "Assignment target must be an identifier"
branch is unreachable (the diagnostic can never appear in the error state);
and the branch fires exactly on non-Identifier targets. -/
theorem claim_C6_assignment_target_identifier :
    (∀ (fuel : Nat) (p : Parser), assignOk (parse_program fuel p).1 = true)
    ∧ (∀ (a : AST) (buf : Option String) (g : CodeGenerator),
        assignOk a = true → g.error_message ≠ assignTargetMsg →
          (generate_node a buf g).2.2.error_message ≠ assignTargetMsg)
    ∧ (∀ (t v : AST) (buf : Option String) (g : CodeGenerator),
        AST.isIdentifierNode t = false →
          generate_node (AST.assignmentExpr t v) buf g =
            (false, buf, set_error_gen g "Assignment target must be an identifier")) := by
  refine ⟨?_, ?_, ?_⟩
  · intro fuel p
    obtain ⟨-, -, -, -, -, -, -, -, -, -, -, -, -, -, -, -, -, -, -, -, -, -, -, -,
      hloop, -⟩ := parser_assignOk fuel
    simp only [parse_program, assignOk]
    exact hloop [] p rfl
  · exact fun a buf g => generate_node_msg a buf g
  · exact fun t v buf g h => generate_node_assign_other t v buf g h

theorem claim_C6_witness :
    (generate_node (AST.assignmentExpr (AST.identifier "x") (AST.numberLiteral "1")) none
        (init_code_generator [])).2.2.error_message ≠ assignTargetMsg
    ∧ generate_node (AST.assignmentExpr (AST.program []) (AST.numberLiteral "1")) none
        (init_code_generator []) =
      (false, none, set_error_gen (init_code_generator [])
        "Assignment target must be an identifier") :=
  ⟨claim_C6_assignment_target_identifier.2.1
      (AST.assignmentExpr (AST.identifier "x") (AST.numberLiteral "1")) none
      (init_code_generator []) rfl (by decide),
   claim_C6_assignment_target_identifier.2.2 (AST.program []) (AST.numberLiteral "1") none
      (init_code_generator []) rfl⟩
